import Mathlib

/-!
# lost-found: credential and session lifecycle

A shallow embedding of the authentication code of the repository:

* `src/backend/models/User.js`: the `isLocked` virtual, the methods
  `comparePassword`, `incLoginAttempts`, `resetLoginAttempts`, the validators
  of the schema and the pre-save password hook;
* `src/backend/routes/auth.js`: the token generators and the route handlers;
* `src/backend/middleware/auth.js`: `authenticateToken` and `rateLimitAction`;
* `src/backend/server.js`: the middleware mounted in front of the routes, in
  its order.

Conventions of the embedding.

* A request is handled at one instant `now`: every `Date.now()` and
  `new Date()` read while one handler runs returns the same value. A time is
  a natural number, the milliseconds since the epoch.
* A handler makes one query for one user document. The document found (or
  `none`) is an argument of the handler, and the handler returns, next to its
  response, that document as it is stored afterwards. `POST /register`, whose
  query is over the whole collection, takes and returns the collection.
* `jsonwebtoken`, `bcryptjs`, `express-validator` and `express-rate-limit` are
  libraries outside the repository. A token is modelled by what `jwt.verify`
  can tell about it (its claims and the secret that signed it); the bcrypt
  functions and `isEmail` are fields of `Env`; the limiter of
  `express-rate-limit` counts the requests of an address in the current window
  and answers 429 once the count exceeds `max`.
* The store and the library calls are taken not to throw, apart from the two
  errors of `jwt.verify`, the failure of email delivery that the handlers
  catch by name, and the schema validation of `save` in `POST /register`; the
  500 answers of the outer `catch` blocks to any other exception are therefore
  not part of the embedding.
-/

namespace LostFound

/-! ## Data model -/

/-- A MongoDB `_id`. -/
abbrev UserId := Nat

/-- The claims of a token: the payload given to `jwt.sign` together with the
`iat` and `exp` (seconds since the epoch) that `jwt.sign` adds for `expiresIn`. -/
structure JwtPayload where
  userId : UserId
  type : Option String
  iat : Nat
  exp : Nat
deriving DecidableEq, Repr

/-- A string presented as a token: either not a JWT at all, or a payload
signed with some secret. -/
inductive Jwt where
  | malformed (raw : String)
  | signed (payload : JwtPayload) (secret : String)
deriving DecidableEq, Repr

/-- Sub-document `verification.email` of the user schema. -/
structure EmailVerification where
  verified : Bool
  token : Option Jwt
  expiresAt : Option Nat
deriving DecidableEq, Repr

/-- Sub-document `verification` of the user schema (its `phone` part is used
by no auth route and is left out). -/
structure Verification where
  email : EmailVerification
deriving DecidableEq, Repr

/-- A user document, read through the schema (an unset path reads as its
default: `loginAttempts` as `0`, `lockUntil` as `null`). The profile paths
(picture, address, preferences, statistics, social accounts) and Mongoose's
bookkeeping paths are used by no auth route or method and are left out.
`password` holds what is stored, the bcrypt hash. -/
structure User where
  id : UserId
  firstName : String
  lastName : String
  email : String
  phone : String
  password : String
  verification : Verification
  isActive : Bool
  isBlocked : Bool
  lastLogin : Nat
  loginAttempts : Nat
  lockUntil : Option Nat
deriving DecidableEq, Repr

/-! ## `models/User.js` -/

/-- Virtual `isLocked`: `!!(this.lockUntil && this.lockUntil > Date.now())`. -/
def isLocked (u : User) (now : Nat) : Bool :=
  match u.lockUntil with
  | none => false
  | some lockUntil => decide (lockUntil > now)

/-- Method `incLoginAttempts`: the stored document after the `updateOne` it
issues. -/
def incLoginAttempts (u : User) (now : Nat) : User :=
  -- If we have a previous lock that has expired, restart at 1
  if (match u.lockUntil with
      | none => false
      | some lockUntil => decide (lockUntil < now)) then
    { u with lockUntil := none, loginAttempts := 1 }
  else
    -- Lock account after 5 failed attempts for 2 hours
    if u.loginAttempts + 1 ≥ 5 ∧ isLocked u now = false then
      { u with loginAttempts := u.loginAttempts + 1,
               lockUntil := some (now + 2 * 60 * 60 * 1000) }
    else
      { u with loginAttempts := u.loginAttempts + 1 }

/-- Method `resetLoginAttempts`: the stored document after
`updateOne({ $unset: { loginAttempts: 1, lockUntil: 1 } })`. -/
def resetLoginAttempts (u : User) : User :=
  { u with loginAttempts := 0, lockUntil := none }

/-! ## Environment and libraries -/

/-- The process environment read by the auth code, and the library functions
it calls. `JWT_SECRET` is taken to be configured. `JWT_EXPIRE` and
`JWT_REFRESH_EXPIRE` hold the configured time span in seconds, `none` when the
variable is unset or empty. `bcryptHash password salt` is `bcrypt.hash`,
`bcryptCompare candidate stored` is `bcrypt.compare`, and `isEmail` is the
validator of that name of `express-validator`. -/
structure Env where
  JWT_SECRET : String
  JWT_REFRESH_SECRET : Option String
  JWT_EXPIRE : Option Nat
  JWT_REFRESH_EXPIRE : Option Nat
  bcryptHash : String → String → String
  bcryptCompare : String → String → Bool
  isEmail : String → Bool

/-- The names `jwt.verify` gives the errors it throws. -/
inductive JwtError where
  | JsonWebTokenError
  | TokenExpiredError
deriving DecidableEq, Repr

/-- Library call `jwt.sign(payload, secret, { expiresIn })` at time `now`, with
`expiresIn` in seconds: `iat` is the current time in seconds and `exp` is
`iat + expiresIn`. -/
def jwtSign (userId : UserId) (type : Option String) (secret : String) (expiresIn : Nat)
    (now : Nat) : Jwt :=
  .signed { userId := userId, type := type, iat := now / 1000, exp := now / 1000 + expiresIn }
    secret

/-- Library call `jwt.verify(token, secret)` at time `now`: the signature is
checked first, then the expiry (`exp` is compared with the current time in
seconds). -/
def jwtVerify (token : Jwt) (secret : String) (now : Nat) : Except JwtError JwtPayload :=
  match token with
  | .malformed _ => .error .JsonWebTokenError
  | .signed payload key =>
    if key ≠ secret then .error .JsonWebTokenError
    else if now / 1000 ≥ payload.exp then .error .TokenExpiredError
    else .ok payload

/-- Expression `process.env.JWT_REFRESH_SECRET || process.env.JWT_SECRET`. -/
def refreshSecret (env : Env) : String :=
  match env.JWT_REFRESH_SECRET with
  | none => env.JWT_SECRET
  | some s => if s = "" then env.JWT_SECRET else s

/-- Method `comparePassword` of the user model. -/
def comparePassword (env : Env) (u : User) (candidatePassword : String) : Bool :=
  env.bcryptCompare candidatePassword u.password

/-! ## Responses -/

/-- A value at a path of a plain object. -/
inductive Field where
  | str (s : String)
  | bool (b : Bool)
  | num (n : Nat)
  | date (t : Nat)
  | null
  | jwt (t : Jwt)
deriving DecidableEq, Repr

/-- A plain object, flattened: the list of its paths with their values. -/
abbrev PlainObject := List (String × Field)

/-- Member `data` of a response body. -/
structure ResponseData where
  user : Option PlainObject
  token : Option Jwt
  refreshToken : Option Jwt
deriving DecidableEq, Repr

/-- An HTTP response: the status and the members of the JSON body. `errors`
lists the request fields of the failed validators. -/
structure Response where
  status : Nat
  success : Bool
  message : Option String
  code : Option String
  errors : List String
  data : Option ResponseData
  retryAfter : Option Int
deriving DecidableEq, Repr

/-- Body `{ success: false, message }` sent with `res.status(status)`. -/
def failure (status : Nat) (message : String) : Response :=
  { status := status, success := false, message := some message, code := none,
    errors := [], data := none, retryAfter := none }

/-- Body `{ success: true, message }` sent with `res.json`, status 200. -/
def successMessage (message : String) : Response :=
  { status := 200, success := true, message := some message, code := none,
    errors := [], data := none, retryAfter := none }

/-- Response `400 { success: false, message: 'Validation failed', errors }`. -/
def validationFailed (errors : List String) : Response :=
  { status := 400, success := false, message := some "Validation failed", code := none,
    errors := errors, data := none, retryAfter := none }

/-- Call `user.toObject()` at time `now`, with the virtuals `fullName` and
`isLocked`; the path `password` is there when the document was loaded with it
(`passwordLoaded`), and a path whose value is undefined is absent. -/
def toObject (u : User) (passwordLoaded : Bool) (now : Nat) : PlainObject :=
  [("_id", .num u.id), ("firstName", .str u.firstName), ("lastName", .str u.lastName),
   ("email", .str u.email), ("phone", .str u.phone)]
  ++ (if passwordLoaded then [("password", .str u.password)] else [])
  ++ [("verification.email.verified", .bool u.verification.email.verified)]
  ++ (match u.verification.email.token with
      | some t => [("verification.email.token", .jwt t)]
      | none => [])
  ++ (match u.verification.email.expiresAt with
      | some t => [("verification.email.expiresAt", .date t)]
      | none => [])
  ++ [("isActive", .bool u.isActive), ("isBlocked", .bool u.isBlocked),
      ("lastLogin", .date u.lastLogin), ("loginAttempts", .num u.loginAttempts),
      ("lockUntil", match u.lockUntil with
                    | some t => .date t
                    | none => .null),
      ("fullName", .str (u.firstName ++ " " ++ u.lastName)),
      ("isLocked", .bool (isLocked u now))]

/-- Statement `delete userResponse.password`. -/
def deletePassword (o : PlainObject) : PlainObject :=
  o.filter (fun kv => kv.1 != "password")

/-! ## `routes/auth.js`: token generators -/

/-- Function `generateToken`: an access token, without a `type` claim, valid
for `JWT_EXPIRE` or seven days. -/
def generateToken (env : Env) (userId : UserId) (now : Nat) : Jwt :=
  jwtSign userId none env.JWT_SECRET (env.JWT_EXPIRE.getD (7 * 24 * 60 * 60)) now

/-- Function `generateRefreshToken`: `type: 'refresh'`, signed with the refresh
secret, valid for `JWT_REFRESH_EXPIRE` or thirty days. -/
def generateRefreshToken (env : Env) (userId : UserId) (now : Nat) : Jwt :=
  jwtSign userId (some "refresh") (refreshSecret env)
    (env.JWT_REFRESH_EXPIRE.getD (30 * 24 * 60 * 60)) now

/-- The email-verification token signed in `POST /register`
(`type: 'email-verification'`, `expiresIn: '24h'`). -/
def verificationToken (env : Env) (userId : UserId) (now : Nat) : Jwt :=
  jwtSign userId (some "email-verification") env.JWT_SECRET (24 * 60 * 60) now

/-- The password-reset token signed in `POST /forgot-password`
(`type: 'password-reset'`, `expiresIn: '1h'`). -/
def resetToken (env : Env) (userId : UserId) (now : Nat) : Jwt :=
  jwtSign userId (some "password-reset") env.JWT_SECRET (60 * 60) now

/-! ## `routes/auth.js`: request validation -/

/-- Body of `POST /login`; a member that is missing reads as `""`. -/
structure LoginRequest where
  email : String
  password : String
deriving DecidableEq, Repr

/-- The validators of `POST /login`: `body('email').isEmail()` and
`body('password').notEmpty()`. -/
def loginValidation (env : Env) (req : LoginRequest) : List String :=
  (if env.isEmail req.email then [] else ["email"])
  ++ (if req.password ≠ "" then [] else ["password"])

/-- A character that `.` of a regular expression does not match. -/
def isLineTerminator (c : Char) : Bool :=
  c.toNat = 0x0A || c.toNat = 0x0D || c.toNat = 0x2028 || c.toNat = 0x2029

/-- Class `[a-z]`. -/
def isLowercase (c : Char) : Bool := decide ('a' ≤ c ∧ c ≤ 'z')

/-- Class `[A-Z]`. -/
def isUppercase (c : Char) : Bool := decide ('A' ≤ c ∧ c ≤ 'Z')

/-- Class `\d`. -/
def isDigit (c : Char) : Bool := decide ('0' ≤ c ∧ c ≤ '9')

/-- Class `[@$!%*?&]`. -/
def isSpecial (c : Char) : Bool :=
  c = '@' || c = '$' || c = '!' || c = '%' || c = '*' || c = '?' || c = '&'

/-- The pattern
`/^(?=.*[a-z])(?=.*[A-Z])(?=.*\d)(?=.*[@$!%*?&])[A-Za-z\d@$!%*?&]/`
tested on a password: each look-ahead searches the first line of the string,
and the class after them consumes its first character. -/
def passwordPattern (password : String) : Bool :=
  let cs := password.toList
  let line := cs.takeWhile (fun c => !isLineTerminator c)
  line.any isLowercase && line.any isUppercase && line.any isDigit && line.any isSpecial
  && (match cs with
      | [] => false
      | c :: _ => isLowercase c || isUppercase c || isDigit c || isSpecial c)

/-- The length that `isLength` of validator.js compares with its bounds: the
UTF-16 length of the string, less one for each surrogate pair (which leaves the
number of code points), less one for each variation selector U+FE0E or U+FE0F. -/
def validatorLength (s : String) : Nat :=
  s.length - (s.toList.filter (fun c => c.toNat = 0xFE0F || c.toNat = 0xFE0E)).length

/-- The two validators of `body('password')` in `POST /register` and
`POST /reset-password`: `isLength({ min: 8 })` and `matches(...)`. -/
def passwordValidation (password : String) : List String :=
  (if validatorLength password ≥ 8 then [] else ["password"])
  ++ (if passwordPattern password then [] else ["password"])

/-! ## `routes/auth.js`: route handlers -/

/-- Handler of `POST /login`. `user` is the result of
`User.findOne({ email }).select('+password')`. -/
def login (env : Env) (user : Option User) (req : LoginRequest) (now : Nat) :
    Response × Option User :=
  let errors := loginValidation env req
  if errors ≠ [] then (validationFailed errors, user)
  else
    match user with
    | none => (failure 401 "Invalid credentials", none)
    | some user =>
      -- Check if user is blocked
      if user.isBlocked then
        (failure 401 "Account is blocked. Please contact support.", some user)
      -- Check if account is locked
      else if isLocked user now then
        (failure 423 "Account is temporarily locked due to multiple failed login attempts. Please try again later.",
          some user)
      -- Verify password
      else if comparePassword env user req.password = false then
        (failure 401 "Invalid credentials", some (incLoginAttempts user now))
      else
        -- Reset login attempts on successful login
        let stored := if user.loginAttempts > 0 then resetLoginAttempts user else user
        -- Update last login: `save` writes the one modified path
        let user := { user with lastLogin := now }
        let stored := { stored with lastLogin := now }
        ({ status := 200, success := true, message := some "Login successful", code := none,
           errors := [], retryAfter := none,
           data := some { user := some (deletePassword (toObject user true now)),
                          token := some (generateToken env user.id now),
                          refreshToken := some (generateRefreshToken env user.id now) } },
          some stored)

/-- Handler of `POST /refresh-token`. `refreshToken` is `none` when the body
has none (or an empty one); `user` is the result of
`User.findById(decoded.userId)`. The handler writes nothing. -/
def refreshTokenRoute (env : Env) (refreshToken : Option Jwt) (user : Option User)
    (now : Nat) : Response :=
  match refreshToken with
  | none => failure 400 "Refresh token is required"
  | some token =>
    match jwtVerify token (refreshSecret env) now with
    | .error .JsonWebTokenError => failure 401 "Invalid refresh token"
    | .error .TokenExpiredError => failure 401 "Refresh token expired"
    | .ok decoded =>
      if decoded.type ≠ some "refresh" then failure 401 "Invalid refresh token"
      else
        match user with
        | none => failure 401 "User not found or inactive"
        | some user =>
          if user.isActive = false then failure 401 "User not found or inactive"
          else
            { status := 200, success := true, message := some "Token refreshed successfully",
              code := none, errors := [], retryAfter := none,
              data := some { user := none,
                             token := some (generateToken env user.id now),
                             refreshToken := some (generateRefreshToken env user.id now) } }

/-- Comparison `expiresAt < new Date()`, false when `expiresAt` is undefined. -/
def expired (expiresAt : Option Nat) (now : Nat) : Bool :=
  match expiresAt with
  | none => false
  | some t => decide (t < now)

/-- Handler of `POST /verify-email`. `token` is `none` when the body has none;
`user` is the result of `User.findById(decoded.userId)`. -/
def verifyEmail (env : Env) (token : Option Jwt) (user : Option User) (now : Nat) :
    Response × Option User :=
  match token with
  | none => (failure 400 "Verification token is required", user)
  | some token =>
    match jwtVerify token env.JWT_SECRET now with
    | .error .JsonWebTokenError => (failure 400 "Invalid verification token", user)
    | .error .TokenExpiredError => (failure 400 "Verification token expired", user)
    | .ok decoded =>
      if decoded.type ≠ some "email-verification" then
        (failure 400 "Invalid verification token", user)
      else
        match user with
        | none => (failure 404 "User not found", none)
        | some user =>
          -- Check if already verified
          if user.verification.email.verified then
            (failure 400 "Email already verified", some user)
          -- Check if token expired
          else if expired user.verification.email.expiresAt now then
            (failure 400 "Verification token expired", some user)
          else
            -- Mark email as verified
            (successMessage "Email verified successfully",
              some { user with
                verification := { email := { verified := true, token := none,
                                             expiresAt := none } } })

/-- Handler of `POST /forgot-password`. `user` is the result of
`User.findOne({ email })`; `delivered` tells whether `sendPasswordResetEmail`
returned (`true`) or threw (`false`). -/
def forgotPassword (env : Env) (email : String) (user : Option User) (delivered : Bool)
    (now : Nat) : Response × Option User :=
  let errors := if env.isEmail email then [] else ["email"]
  if errors ≠ [] then (validationFailed errors, user)
  else
    match user with
    | none =>
      -- Don't reveal if user exists or not
      (successMessage "If an account with that email exists, a password reset link has been sent.",
        none)
    | some user =>
      -- Generate and store reset token
      let stored : User := { user with
        verification := { email := { verified := user.verification.email.verified,
                                     token := some (resetToken env user.id now),
                                     expiresAt := some (now + 60 * 60 * 1000) } } }
      if delivered = false then
        (failure 500 "Failed to send password reset email. Please try again.", some stored)
      else
        (successMessage "Password reset email sent successfully", some stored)

/-- Handler of `POST /reset-password`. `token` is `none` when the body has none
(or an empty one), which fails the validator `body('token').notEmpty()`;
`user` is the result of `User.findById(decoded.userId)`; `salt` is what
`bcrypt.genSalt` returns in the pre-save hook, which hashes the password
because the path was modified. -/
def resetPassword (env : Env) (token : Option Jwt) (password : String) (user : Option User)
    (salt : String) (now : Nat) : Response × Option User :=
  match token with
  | none => (validationFailed ("token" :: passwordValidation password), user)
  | some token =>
    if passwordValidation password ≠ [] then
      (validationFailed (passwordValidation password), user)
    else
      match jwtVerify token env.JWT_SECRET now with
      | .error .JsonWebTokenError => (failure 400 "Invalid reset token", user)
      | .error .TokenExpiredError => (failure 400 "Reset token expired", user)
      | .ok decoded =>
        if decoded.type ≠ some "password-reset" then
          (failure 400 "Invalid reset token", user)
        else
          match user with
          | none => (failure 404 "User not found", none)
          | some user =>
            -- Check if token expired
            if expired user.verification.email.expiresAt now then
              (failure 400 "Reset token expired", some user)
            else
              -- Update password
              (successMessage "Password reset successfully",
                some { user with
                  password := env.bcryptHash password salt,
                  verification := { email := { verified := user.verification.email.verified,
                                               token := none, expiresAt := none } } })

/-! ## `middleware/auth.js` -/

/-- Object `req.user` that `authenticateToken` attaches. -/
structure ReqUser where
  userId : UserId
  email : String
  firstName : String
  lastName : String
  role : String
deriving DecidableEq, Repr

/-- What a middleware does with a request: it calls `next()` (here with the
`req.user` it attached) or it sends a response. -/
inductive AuthResult where
  | next (user : ReqUser)
  | respond (r : Response)
deriving DecidableEq, Repr

/-- Middleware `authenticateToken`. `token` is the second word of the
`Authorization` header, `none` when the header or the word is missing; `user`
is the result of `User.findById(decoded.userId)`. The schema has no path
`role`, so `user.role || 'user'` is `'user'`. -/
def authenticateToken (env : Env) (token : Option Jwt) (user : Option User) (now : Nat) :
    AuthResult :=
  match token with
  | none => .respond (failure 401 "Access token is required")
  | some token =>
    match jwtVerify token env.JWT_SECRET now with
    | .error .JsonWebTokenError => .respond (failure 401 "Invalid token")
    | .error .TokenExpiredError =>
      .respond { status := 401, success := false, message := some "Token expired",
                 code := some "TOKEN_EXPIRED", errors := [], data := none, retryAfter := none }
    | .ok decoded =>
      if (match decoded.type with
          | none => false
          | some t => t ≠ "" ∧ t ≠ "access") then
        .respond (failure 401 "Invalid token type")
      else
        match user with
        | none => .respond (failure 401 "User not found")
        | some user =>
          if user.isActive = false then .respond (failure 401 "User account is deactivated")
          else if user.isBlocked then .respond (failure 401 "User account is blocked")
          else
            .next { userId := user.id, email := user.email, firstName := user.firstName,
                    lastName := user.lastName, role := "user" }

/-- The key of a rate-limit entry in the `Map`: `req.user ? req.user.userId :
req.ip`. A `Map` compares keys by SameValueZero: an address is a string and is
compared by value, but `req.user.userId` is the `ObjectId` object `user._id`,
and an object is a key by identity. `object` names that object, not the id
that it holds. -/
inductive ActorKey where
  | userId (object : Nat)
  | ip (address : String)
deriving DecidableEq, Repr

/-- Expression `req.user ? req.user.userId : req.ip`. `object` is the identity of
the object `req.user.userId`: `authenticateToken` sets it to the `_id` of the
document that `User.findById` has loaded for this request, a new object for
each request, so two requests of one user have different keys. -/
def actorKey (user : Option ReqUser) (object : Nat) (ip : String) : ActorKey :=
  match user with
  | some _ => .userId object
  | none => .ip ip

/-- The `Map` named `attempts` that one `rateLimitAction(maxAttempts, windowMs)`
closes over. -/
abbrev Attempts := ActorKey → Option (List Nat)

/-- The empty `Map`. -/
def Attempts.empty : Attempts := fun _ => none

/-- Expression `Math.ceil(windowMs / 1000)`. -/
def retryAfter (windowMs : Int) : Int := -((-windowMs) / 1000)

/-- One call of the middleware returned by `rateLimitAction(maxAttempts,
windowMs)`, for the request key `key` at time `now`: the response sent (`none`
when `next()` is called) and the `Map` afterwards. -/
def rateLimitAction (maxAttempts windowMs : Int) (attempts : Attempts) (key : ActorKey)
    (now : Nat) : Option Response × Attempts :=
  let userAttempts := (attempts key).getD []
  -- Remove expired attempts
  let validAttempts := userAttempts.filter (fun (timestamp : Nat) => decide ((now : Int) - (timestamp : Int) < windowMs))
  if (validAttempts.length : Int) ≥ maxAttempts then
    (some { status := 429, success := false,
            message := some "Too many attempts. Please try again later.",
            code := none, errors := [], data := none,
            retryAfter := some (retryAfter windowMs) },
      attempts)
  else
    -- Add current attempt
    (none, Function.update attempts key (some (validAttempts ++ [now])))

/-- The call was let through: `next()` was called. -/
def allowed (r : Option Response × Attempts) : Bool := r.1.isNone

/-! ## Runs of requests -/

/-- A run of `POST /login` calls on one user document, each call with its
request and its time: the responses in order, and the document as stored after
the last call. -/
def loginSeq (env : Env) (user : Option User) :
    List (LoginRequest × Nat) → List Response × Option User
  | [] => ([], user)
  | (req, now) :: rest =>
    let r := login env user req now
    let rs := loginSeq env r.2 rest
    (r.1 :: rs.1, rs.2)

/-- The response of `POST /login` for a locked account. -/
def accountLocked : Response :=
  failure 423 "Account is temporarily locked due to multiple failed login attempts. Please try again later."

/-- The user documents that the auth routes can store for one user, starting
from a document with no failed login and no lock (the defaults with which
`POST /register` creates a user; every other path is arbitrary). Each step is
one request that finds the document and leaves it stored as `u'`. -/
inductive Reachable (env : Env) : User → Prop where
  | fresh (u : User) (hattempts : u.loginAttempts = 0) (hlock : u.lockUntil = none) :
      Reachable env u
  | login (u u' : User) (req : LoginRequest) (now : Nat) (h : Reachable env u)
      (hstep : (login env (some u) req now).2 = some u') : Reachable env u'
  | verifyEmail (u u' : User) (token : Option Jwt) (now : Nat) (h : Reachable env u)
      (hstep : (verifyEmail env token (some u) now).2 = some u') : Reachable env u'
  | forgotPassword (u u' : User) (email : String) (delivered : Bool) (now : Nat)
      (h : Reachable env u)
      (hstep : (forgotPassword env email (some u) delivered now).2 = some u') :
      Reachable env u'
  | resetPassword (u u' : User) (token : Option Jwt) (password salt : String) (now : Nat)
      (h : Reachable env u)
      (hstep : (resetPassword env token password (some u) salt now).2 = some u') :
      Reachable env u'

/-! ## Sample data -/

/-- A sample environment: one secret for both kinds of token, the default
lifetimes, and a toy hash (the salt followed by the password). -/
def demoEnv : Env :=
  { JWT_SECRET := "secret", JWT_REFRESH_SECRET := none, JWT_EXPIRE := none,
    JWT_REFRESH_EXPIRE := none,
    bcryptHash := fun password salt => salt ++ password,
    bcryptCompare := fun candidate stored => stored == "salt" ++ candidate,
    isEmail := fun email => email == "alice@example.com" }

/-- A sample user, active and not blocked, with no failed login and no lock;
her password is `Abcd1234!`. -/
def alice : User :=
  { id := 1, firstName := "Alice", lastName := "Liddell", email := "alice@example.com",
    phone := "919876543210", password := "saltAbcd1234!",
    verification := { email := { verified := false, token := none, expiresAt := none } },
    isActive := true, isBlocked := false, lastLogin := 0, loginAttempts := 0,
    lockUntil := none }

/-- A login request of the sample user with a password that does not match. -/
def wrongLogin : LoginRequest := { email := "alice@example.com", password := "guess" }

/-- A login request of the sample user with her password. -/
def rightLogin : LoginRequest := { email := "alice@example.com", password := "Abcd1234!" }

/-- The sample user after five wrong passwords, the last at time 5000: locked
until 7205000. -/
def aliceLocked : User := { alice with loginAttempts := 5, lockUntil := some 7205000 }

/-! ## Token kinds -/

/-- The four kinds of token of the specification. -/
inductive TokenKind where
  | access
  | refresh
  | emailVerification
  | passwordReset
deriving DecidableEq, Repr

/-- The token of each kind as the server issues it for `userId` at time `now`:
`generateToken`, `generateRefreshToken`, the token signed in `POST /register`
and the token signed in `POST /forgot-password`. -/
def issue (env : Env) (kind : TokenKind) (userId : UserId) (now : Nat) : Jwt :=
  match kind with
  | .access => generateToken env userId now
  | .refresh => generateRefreshToken env userId now
  | .emailVerification => verificationToken env userId now
  | .passwordReset => resetToken env userId now

/-- The consumer of each kind, given a token and the user document its query
finds: `authenticateToken` for access tokens, `POST /refresh-token`,
`POST /verify-email` and `POST /reset-password` (with the new password and the
salt). The result is the response sent (`none` when `authenticateToken` calls
`next()`) and the document as stored afterwards. -/
def consume (env : Env) (expected : TokenKind) (token : Option Jwt) (user : Option User)
    (password salt : String) (now : Nat) : Option Response × Option User :=
  match expected with
  | .access =>
    match authenticateToken env token user now with
    | .next _ => (none, user)
    | .respond r => (some r, user)
  | .refresh => (some (refreshTokenRoute env token user now), user)
  | .emailVerification =>
    ((verifyEmail env token user now).1, (verifyEmail env token user now).2)
  | .passwordReset =>
    ((resetPassword env token password user salt now).1,
      (resetPassword env token password user salt now).2)

/-! ## The step function of the specification for a failed login -/

/-- The specification's `recordFailedLogin` on the pair (failure counter `n`,
lock-until `L`) at time `now`: if `L` is set and `L < now` the result is
`(1, unset)`; otherwise the counter becomes `n + 1`, and lock-until becomes
`now + 7200000` exactly when `n + 1 ≥ 5` and the user is not currently locked
(`L` set and `L > now`), and is left unchanged otherwise. -/
def recordFailedLoginSpec (n : Nat) (L : Option Nat) (now : Nat) : Nat × Option Nat :=
  let lockExpired : Bool :=
    match L with
    | some l => decide (l < now)
    | none => false
  let currentlyLocked : Bool :=
    match L with
    | some l => decide (l > now)
    | none => false
  if lockExpired then (1, none)
  else (n + 1, if n + 1 ≥ 5 ∧ currentlyLocked = false then some (now + 7200000) else L)

/-! ## Runs of the rate limiter -/

/-- A run of calls of one rate limiter (one `Map`) for one key, at the given
times: the decisions in order (`true` when `next()` is called), and the `Map`
after the last call. -/
def rateLimitSeq (maxAttempts windowMs : Int) (attempts : Attempts) (key : ActorKey) :
    List Nat → List Bool × Attempts
  | [] => ([], attempts)
  | now :: rest =>
    let r := rateLimitAction maxAttempts windowMs attempts key now
    let rs := rateLimitSeq maxAttempts windowMs r.2 key rest
    (allowed r :: rs.1, rs.2)

/-- The timestamps of a stored list that lie within the window at `now`. -/
def inWindow (windowMs : Int) (now : Nat) (stored : List Nat) : List Nat :=
  stored.filter (fun (t : Nat) => decide ((now : Int) - (t : Int) < windowMs))

/-- A sample `Map`, that of a limiter `rateLimitAction(1, 1500)` after calls of
the address `10.0.0.1` at times 100 and 5000: both were let through, and the
list stored for the address is `[5000]`. -/
def busyAttempts : Attempts :=
  (rateLimitSeq 1 1500 Attempts.empty (.ip "10.0.0.1") [100, 5000]).2

/-! ## `server.js`: the chain in front of `POST /api/auth/login` -/

/-- The variables of the environment that `server.js` reads for the middleware
in front of the routes: `RATE_LIMIT_MAX_REQUESTS` as `parseInt` reads it (`none`
for `NaN`, which it also is when the variable is not set), and `ALLOWED_ORIGINS`
split at the commas (`none` when the variable is not set). -/
structure ServerEnv where
  RATE_LIMIT_MAX_REQUESTS : Option Int
  ALLOWED_ORIGINS : Option (List String)

/-- Option `max` of `limiter`: `parseInt(process.env.RATE_LIMIT_MAX_REQUESTS) ||
100`. -/
def limiterMax (senv : ServerEnv) : Int :=
  match senv.RATE_LIMIT_MAX_REQUESTS with
  | none => 100
  | some n => if n = 0 then 100 else n

/-- Option `message` of `limiter`. -/
def limiterMessage : String := "Too many requests from this IP, please try again later."

/-- The list `allowedOrigins` of `corsOptions.origin`. -/
def allowedOrigins (senv : ServerEnv) : List String :=
  senv.ALLOWED_ORIGINS.getD ["http://localhost:3000", "http://localhost:5000"]

/-- The store of `limiter`, the limiter of the library `express-rate-limit`
that `server.js` mounts on `/api/`: for each address (`req.ip`, the default
key), the number of requests counted in the current window. The library empties
the count when the window ends. -/
abbrev Hits := String → Nat

/-- The store at the start of a window. -/
def Hits.empty : Hits := fun _ => 0

/-- One request to a path under `/api/` at `limiter`, from the address `ip`: the
library counts the request and calls `next()` unless the count of the address
now exceeds `max`; the result tells whether `next()` is called, and gives the
store afterwards. -/
def limiter (senv : ServerEnv) (hits : Hits) (ip : String) : Bool × Hits :=
  let totalHits := hits ip + 1
  (decide ((totalHits : Int) ≤ limiterMax senv), Function.update hits ip totalHits)

/-- The store after requests to paths under `/api/` from the given addresses,
in order, within one window. -/
def limiterSeq (senv : ServerEnv) (hits : Hits) : List String → Hits
  | [] => hits
  | ip :: rest => limiterSeq senv (limiter senv hits ip).2 rest

/-- A request `POST /api/auth/login` as the middleware of `server.js` sees it:
the address, the header `Origin`, the body as `express.json` and
`express.urlencoded` parse it (or the error that they pass to `next`), and the
error that `session` passes to `next`, if it does. -/
structure HttpRequest where
  ip : String
  origin : Option String
  body : Except String LoginRequest
  sessionError : Option String

/-- What the chain of `POST /api/auth/login` does with a request: the 429 of
`limiter` with its text, an error passed to `next` (which the error-handling
middleware answers), or the response of the route. -/
inductive RouteResult where
  | tooManyRequests (message : String)
  | failed (error : String)
  | handled (r : Response)
deriving DecidableEq, Repr

/-- The chain of `POST /api/auth/login` as `server.js` and `routes/auth.js`
mount it, in order: `helmet` (which only sets headers), `limiter` on `/api/`,
the body parsers, `compression`, `cors` with the `origin` callback of
`corsOptions`, `session`, `morgan`, and then the validators and the handler of
the route. `user` is what `User.findOne` would give to the handler. The result
also has the store of `limiter` and the user document afterwards. No
`rateLimitAction` middleware is mounted on the route. -/
def loginRoute (env : Env) (senv : ServerEnv) (hits : Hits) (req : HttpRequest)
    (user : Option User) (now : Nat) : RouteResult × Hits × Option User :=
  -- Rate limiting
  let limited := limiter senv hits req.ip
  if limited.1 = false then (.tooManyRequests limiterMessage, limited.2, user)
  else
    -- Body parsing middleware
    match req.body with
    | .error e => (.failed e, limited.2, user)
    | .ok body =>
      -- CORS configuration
      let originAllowed :=
        match req.origin with
        | none => true
        | some origin => origin = "" || (allowedOrigins senv).contains origin
      if originAllowed = false then (.failed "Not allowed by CORS", limited.2, user)
      else
        -- Session configuration
        match req.sessionError with
        | some e => (.failed e, limited.2, user)
        | none => (.handled (login env user body now).1, limited.2, (login env user body now).2)

/-! ## `models/User.js`: schema validation and the password hook -/

/-- Class `\w`. -/
def isWordChar (c : Char) : Bool := isLowercase c || isUppercase c || isDigit c || c = '_'

/-- The pattern `\w+([.-]?\w+)*` matched against a whole list of characters,
read from left to right; `afterWord` tells whether the character before was of
class `\w`: words of `\w` characters joined by single `.` or `-`. -/
def dottedWordFrom (afterWord : Bool) : List Char → Bool
  | [] => afterWord
  | c :: cs =>
    if isWordChar c then dottedWordFrom true cs
    else if (c = '.' || c = '-') && afterWord then dottedWordFrom false cs
    else false

/-- The pattern `(\.\w{2,3})+` matched against a whole list of characters. -/
def tldGroups : List Char → Bool
  | '.' :: a :: b :: rest =>
    isWordChar a && isWordChar b
    && (match rest with
        | [] => true
        | c :: rest' =>
          tldGroups (c :: rest')
          || (isWordChar c
              && (match rest' with
                  | [] => true
                  | d :: rest'' => tldGroups (d :: rest''))))
  | _ => false

/-- The `match` validator of the schema path `email`:
`/^\w+([.-]?\w+)*@\w+([.-]?\w+)*(\.\w{2,3})+$/`. -/
def emailSchemaPattern (email : String) : Bool :=
  let cs := email.toList
  let localPart := cs.takeWhile (fun c => c != '@')
  match cs.dropWhile (fun c => c != '@') with
  | [] => false
  | _ :: domain =>
    dottedWordFrom false localPart
    && (List.range (domain.length + 1)).any
        (fun i => dottedWordFrom false (domain.take i) && tldGroups (domain.drop i))

/-- The pattern `/^[\+]?[1-9][\d]{0,15}$/` tested on a phone number: the
`match` validator of the schema path `phone`, and the validator of
`body('phone')` in `POST /register`. -/
def phonePattern (phone : String) : Bool :=
  let digits :=
    match phone.toList with
    | '+' :: rest => rest
    | cs => cs
  match digits with
  | [] => false
  | c :: rest => decide ('1' ≤ c ∧ c ≤ '9') && rest.all isDigit && decide (rest.length ≤ 15)

/-- Property `length` of a JavaScript string: its number of UTF-16 code units,
two for a character outside the Basic Multilingual Plane. -/
def utf16Length (s : String) : Nat :=
  (s.toList.map (fun c => if c.toNat < 0x10000 then 1 else 2)).sum

/-- The validation that `save()` runs on a new document before the `pre('save')`
hooks of the schema, for the paths that have validators: `required` (a string
that is not empty) on the two names, email, phone and password, `maxlength` 50
on the names and `minlength` 8 on the password (both compare `length`, in
UTF-16 code units), and `match` on email and phone. The other paths of a new
document hold their defaults, which pass their `enum` validators. The result
lists the paths that fail. -/
def schemaValidation (u : User) : List String :=
  (if u.firstName ≠ "" ∧ utf16Length u.firstName ≤ 50 then [] else ["firstName"])
  ++ (if u.lastName ≠ "" ∧ utf16Length u.lastName ≤ 50 then [] else ["lastName"])
  ++ (if u.email ≠ "" ∧ emailSchemaPattern u.email = true then [] else ["email"])
  ++ (if u.phone ≠ "" ∧ phonePattern u.phone = true then [] else ["phone"])
  ++ (if u.password ≠ "" ∧ utf16Length u.password ≥ 8 then [] else ["password"])

/-- The first `pre('save')` hook of the schema: it returns at once unless the
path `password` was modified, and otherwise replaces the password by its bcrypt
hash (`salt` is what `bcrypt.genSalt` returned). -/
def preSavePassword (env : Env) (passwordModified : Bool) (u : User) (salt : String) : User :=
  if passwordModified = false then u
  else { u with password := env.bcryptHash u.password salt }

/-! ## `routes/auth.js`: `POST /register` -/

/-- The sanitizers of `express-validator` and the string method that
`POST /register` applies to the body: `trim()`, `normalizeEmail()`, and
`String.prototype.toLowerCase`. -/
structure Sanitizers where
  trim : String → String
  normalizeEmail : String → String
  toLowerCase : String → String

/-- Body of `POST /register`; a member that is missing reads as `""`. -/
structure RegisterRequest where
  firstName : String
  lastName : String
  email : String
  phone : String
  password : String
deriving DecidableEq, Repr

/-- The validators of `POST /register`: names of 2 to 50 characters after
`trim()` (`isLength({ min: 2, max: 50 })`), `isEmail()`, the phone pattern, and
the two password validators. -/
def registerValidation (env : Env) (san : Sanitizers) (req : RegisterRequest) : List String :=
  (if 2 ≤ validatorLength (san.trim req.firstName)
      ∧ validatorLength (san.trim req.firstName) ≤ 50 then []
    else ["firstName"])
  ++ (if 2 ≤ validatorLength (san.trim req.lastName)
      ∧ validatorLength (san.trim req.lastName) ≤ 50 then []
    else ["lastName"])
  ++ (if env.isEmail req.email then [] else ["email"])
  ++ (if phonePattern req.phone then [] else ["phone"])
  ++ passwordValidation req.password

/-- Query `User.findOne({ $or: [{ email }, { phone }] })` on the collection. -/
def findOneByEmailOrPhone (users : List User) (email phone : String) : Option User :=
  users.find? (fun u => u.email == email || u.phone == phone)

/-- The document `new User({ firstName, lastName, email, phone, password })`
with the schema defaults, and with the verification token and its expiry set
as the handler of `POST /register` sets them before `save`; `password` is still
the plaintext. -/
def newUser (env : Env) (newId : UserId) (firstName lastName email phone password : String)
    (now : Nat) : User :=
  { id := newId, firstName := firstName, lastName := lastName, email := email, phone := phone,
    password := password,
    verification := { email := { verified := false,
                                 token := some (verificationToken env newId now),
                                 expiresAt := some (now + 24 * 60 * 60 * 1000) } },
    isActive := true, isBlocked := false, lastLogin := now, loginAttempts := 0,
    lockUntil := none }

/-- Handler of `POST /register` on the collection `users`. `newId` is the `_id`
that `new User` generates, `salt` what `bcrypt.genSalt` returns in the pre-save
hook, and `delivered` tells whether `sendVerificationEmail` returned or threw.
`save` validates the document against the schema first (`schemaValidation`);
when that fails, `save` rejects, nothing is stored, and the outer `catch`
answers 500 (the member `error` of that body, set in development only, is left
out). The setters of the schema (`trim`, `lowercase`) find the values already
trimmed and lower-cased. -/
def register (env : Env) (san : Sanitizers) (users : List User) (req : RegisterRequest)
    (newId : UserId) (salt : String) (delivered : Bool) (now : Nat) : Response × List User :=
  let errors := registerValidation env san req
  if errors ≠ [] then (validationFailed errors, users)
  else
    let email := san.toLowerCase (san.normalizeEmail req.email)
    -- Check if user already exists
    match findOneByEmailOrPhone users email req.phone with
    | some existingUser =>
      (failure 400 (if existingUser.email = email then "Email already registered"
                    else "Phone number already registered"), users)
    | none =>
      -- Create new user, generate verification token
      let user := newUser env newId (san.trim req.firstName) (san.trim req.lastName) email
        req.phone req.password now
      if schemaValidation user ≠ [] then
        (failure 500 "Registration failed. Please try again.", users)
      else
        let user := preSavePassword env true user salt
        let response : Response :=
          { status := 201, success := true,
            message := some "User registered successfully. Please check your email for verification.",
            code := none, errors := [], retryAfter := none,
            data := some { user := some (deletePassword (toObject user true now)),
                           token := some (generateToken env user.id now),
                           refreshToken := some (generateRefreshToken env user.id now) } }
        -- Send verification email: continue with registration even if email fails
        if delivered then (response, users ++ [user]) else (response, users ++ [user])

/-! ## Runs of auth requests on one user document -/

/-- A request to one of the auth routes that find a user document and may
write it. -/
inductive AuthOp where
  | login (req : LoginRequest)
  | verifyEmail (token : Option Jwt)
  | forgotPassword (email : String) (delivered : Bool)
  | resetPassword (token : Option Jwt) (password salt : String)
deriving DecidableEq, Repr

/-- The document as stored after one auth request that found the document `u`. -/
def stepOp (env : Env) (u : User) (op : AuthOp) (now : Nat) : User :=
  match op with
  | .login req => ((login env (some u) req now).2).getD u
  | .verifyEmail token => ((verifyEmail env token (some u) now).2).getD u
  | .forgotPassword email delivered =>
    ((forgotPassword env email (some u) delivered now).2).getD u
  | .resetPassword token password salt =>
    ((resetPassword env token password (some u) salt now).2).getD u

/-- The document as stored after a run of auth requests, each with its time. -/
def runOps (env : Env) (u : User) : List (AuthOp × Nat) → User
  | [] => u
  | (op, now) :: rest => runOps env (stepOp env u op now) rest

/-! ## More sample data -/

/-- Sample sanitizers: nothing to trim or normalise, ASCII lower-casing. -/
def demoSanitizers : Sanitizers :=
  { trim := fun s => s, normalizeEmail := fun s => s,
    toLowerCase := fun s => String.mk (s.toList.map Char.toLower) }

/-- The registration request of the sample user. -/
def aliceRequest : RegisterRequest :=
  { firstName := "Alice", lastName := "Liddell", email := "alice@example.com",
    phone := "919876543210", password := "Abcd1234!" }

/-- A sample environment whose `isEmail` accepts the address
`alice@example.info`, as validator.js does. -/
def infoEnv : Env := { demoEnv with isEmail := fun email => email == "alice@example.info" }

/-- The registration request of the sample user with an address in a top-level
domain of four letters. -/
def infoRequest : RegisterRequest := { aliceRequest with email := "alice@example.info" }

/-- The registration request of the sample user with a first name of 26
characters outside the Basic Multilingual Plane (52 UTF-16 code units). -/
def astralRequest : RegisterRequest :=
  { aliceRequest with firstName := String.mk (List.replicate 26 '😀') }

/-- A sample server environment: none of the variables is set. -/
def demoServerEnv : ServerEnv := { RATE_LIMIT_MAX_REQUESTS := none, ALLOWED_ORIGINS := none }

/-- A login request of the sample user with her password, from the address
`10.0.0.1` and without a header `Origin`. -/
def rightLoginRequest : HttpRequest :=
  { ip := "10.0.0.1", origin := none, body := .ok rightLogin, sessionError := none }

/-- The sample user as `POST /register` stores her at time `t`: verification
pending until `t + 86400000`. -/
def aliceRegistered (t : Nat) : User :=
  { alice with
    lastLogin := t,
    verification := { email := { verified := false,
                                 token := some (verificationToken demoEnv 1 t),
                                 expiresAt := some (t + 86400000) } } }

/-- The requests after which the registration token can still verify the email
at time `T`: logins, password resets, and forgot-password requests made at a
time `t1` with `T ≤ t1 + 3600000` (a forgot-password stores the expiry
`t1 + 3600000`). -/
def verifiableAfter (T : Nat) (c : AuthOp × Nat) : Bool :=
  match c.1 with
  | .login _ => true
  | .resetPassword _ _ _ => true
  | .forgotPassword _ _ => decide (T ≤ c.2 + 3600000)
  | .verifyEmail _ => false

/-- The requests whose `save` does not modify the path `password`: all but
password resets. -/
def AuthOp.keepsPassword : AuthOp → Bool
  | .resetPassword _ _ _ => false
  | _ => true

/-! ## The claims, lifetime and secret of a token, by kind -/

/-- The `type` claim of a token of each kind as the server signs it: none for
an access token. -/
def typeClaim : TokenKind → Option String
  | .access => none
  | .refresh => some "refresh"
  | .emailVerification => some "email-verification"
  | .passwordReset => some "password-reset"

/-- The lifetime in seconds of a token of each kind. -/
def lifetime (env : Env) : TokenKind → Nat
  | .access => env.JWT_EXPIRE.getD 604800
  | .refresh => env.JWT_REFRESH_EXPIRE.getD 2592000
  | .emailVerification => 86400
  | .passwordReset => 3600

/-- The secret that signs a token of each kind. -/
def signingSecret (env : Env) : TokenKind → String
  | .refresh => refreshSecret env
  | _ => env.JWT_SECRET

/-! ## `routes/auth.js`: `GET /me` and the verification email -/

/-- Handler of `GET /me`. `user` is the result of
`User.findById(req.user.userId)`, loaded without the path `password` (the
schema declares it `select: false`). The handler writes nothing. -/
def me (user : Option User) (now : Nat) : Response :=
  match user with
  | none => failure 404 "User not found"
  | some user =>
    { status := 200, success := true, message := none, code := none, errors := [],
      retryAfter := none,
      data := some { user := some (deletePassword (toObject user false now)),
                     token := none, refreshToken := none } }

/-- The chain `router.get('/me', authenticateToken, handler)`: `user` is the
document that both queries find. -/
def meRoute (env : Env) (token : Option Jwt) (user : Option User) (now : Nat) : Response :=
  match authenticateToken env token user now with
  | .respond r => r
  | .next _ => me user now

/-- The arguments `(user.email, verificationToken, user.firstName)` of the call
of `sendVerificationEmail` in `POST /register`, `none` when the handler
returns before that call. -/
def registerMail (env : Env) (san : Sanitizers) (users : List User) (req : RegisterRequest)
    (newId : UserId) (now : Nat) : Option (String × Jwt × String) :=
  if registerValidation env san req ≠ [] then none
  else
    let email := san.toLowerCase (san.normalizeEmail req.email)
    match findOneByEmailOrPhone users email req.phone with
    | some _ => none
    | none =>
      let user := newUser env newId (san.trim req.firstName) (san.trim req.lastName) email
        req.phone req.password now
      if schemaValidation user ≠ [] then none
      else some (user.email, verificationToken env newId now, user.firstName)

/-- Whether the user object in the body of a response, if there is one, has a
path `password`. -/
def hasPasswordPath (r : Response) : Bool :=
  match r.data with
  | none => false
  | some data =>
    match data.user with
    | none => false
    | some userObject => userObject.any (fun kv => kv.1 == "password")

/-! ## Runs of the lock methods -/

/-- A call of one of the two lock methods of the user model. -/
inductive LockOp where
  | incLoginAttempts
  | resetLoginAttempts
deriving DecidableEq, Repr

/-- The document as stored after a run of calls of `incLoginAttempts` and
`resetLoginAttempts`, each at its time. -/
def runLockOps (u : User) : List (LockOp × Nat) → User
  | [] => u
  | (.incLoginAttempts, now) :: rest => runLockOps (incLoginAttempts u now) rest
  | (.resetLoginAttempts, _) :: rest => runLockOps (resetLoginAttempts u) rest

/-! ## Runs of the rate limiter over several keys -/

/-- A run of calls of one rate limiter (one `Map`), each call with its key and
its time: the decisions in order (`true` when `next()` is called), and the
`Map` after the last call. -/
def rateLimitCalls (maxAttempts windowMs : Int) (attempts : Attempts) :
    List (ActorKey × Nat) → List Bool × Attempts
  | [] => ([], attempts)
  | (key, now) :: rest =>
    let r := rateLimitAction maxAttempts windowMs attempts key now
    let rs := rateLimitCalls maxAttempts windowMs r.2 rest
    (allowed r :: rs.1, rs.2)

/-- The times of the calls of a run that were made for `key` and let through,
in order. -/
def allowedTimes (maxAttempts windowMs : Int) (attempts : Attempts) (key : ActorKey) :
    List (ActorKey × Nat) → List Nat
  | [] => []
  | (k, now) :: rest =>
    let r := rateLimitAction maxAttempts windowMs attempts k now
    (if k = key ∧ allowed r = true then [now] else [])
      ++ allowedTimes maxAttempts windowMs r.2 key rest

/-- The timestamps of a list that lie in the half-open interval from `start` to
`start + windowMs`. -/
def inInterval (start windowMs : Int) (times : List Nat) : List Nat :=
  times.filter (fun (t : Nat) => decide (start ≤ (t : Int) ∧ (t : Int) < start + windowMs))

/-! ## Theorems -/

/-- C1: `incLoginAttempts` is the step function of the specification on the
pair (`loginAttempts`, `lockUntil`) at time `now`, and it changes no other path
of the document. -/
theorem incLoginAttempts_eq_recordFailedLoginSpec (u : User) (now : Nat) :
    incLoginAttempts u now =
      { u with
        loginAttempts := (recordFailedLoginSpec u.loginAttempts u.lockUntil now).1,
        lockUntil := (recordFailedLoginSpec u.loginAttempts u.lockUntil now).2 } := by
  obtain ⟨id, fn, ln, em, ph, pw, ver, act, blk, last, n, L⟩ := u
  cases L with
  | none =>
    by_cases h : n + 1 ≥ 5 <;> simp [incLoginAttempts, recordFailedLoginSpec, isLocked, h]
  | some l =>
    by_cases h1 : l < now
    · simp [incLoginAttempts, recordFailedLoginSpec, h1]
    · by_cases h2 : n + 1 ≥ 5 <;> by_cases h3 : l > now <;>
        simp [incLoginAttempts, recordFailedLoginSpec, isLocked, h1, h2, h3]

/-- C2: the virtual `isLocked` is true exactly when `lockUntil` is set and
later than `now`; two documents with the same `lockUntil` give the same value
(no other path is read), and the virtual returns a boolean only (it has no
document to return, so it changes nothing). -/
theorem isLocked_iff (u : User) (now : Nat) :
    (isLocked u now = true ↔ ∃ l, u.lockUntil = some l ∧ l > now)
    ∧ ∀ v : User, v.lockUntil = u.lockUntil → isLocked v now = isLocked u now := by
  constructor
  · cases h : u.lockUntil <;> simp [isLocked, h]
  · intro v hv
    simp [isLocked, hv]

/-! ### Failed logins -/

/-- A login that passes validation, for a user who is neither blocked nor
locked, with a password that does not match: 401 and `incLoginAttempts`. -/
theorem login_wrong_password (env : Env) (u : User) (req : LoginRequest) (now : Nat)
    (hvalid : loginValidation env req = []) (hblocked : u.isBlocked = false)
    (hlocked : isLocked u now = false)
    (hwrong : env.bcryptCompare req.password u.password = false) :
    login env (some u) req now
      = (failure 401 "Invalid credentials", some (incLoginAttempts u now)) := by
  simp [login, hvalid, hblocked, hlocked, comparePassword, hwrong]

/-- The same for a user without a lock: the counter is incremented, and the
lock is set when the counter reaches 5. -/
theorem login_wrong_password_unlocked (env : Env) (u : User) (req : LoginRequest) (now : Nat)
    (hvalid : loginValidation env req = []) (hblocked : u.isBlocked = false)
    (hlock : u.lockUntil = none)
    (hwrong : env.bcryptCompare req.password u.password = false) :
    login env (some u) req now
      = (failure 401 "Invalid credentials",
          some { u with
            loginAttempts := u.loginAttempts + 1,
            lockUntil := if u.loginAttempts + 1 ≥ 5 then some (now + 7200000) else none }) := by
  have hlocked : isLocked u now = false := by simp [isLocked, hlock]
  rw [login_wrong_password env u req now hvalid hblocked hlocked hwrong]
  obtain ⟨id, fn, ln, em, ph, pw, ver, act, blk, last, n, L⟩ := u
  simp only at hlock
  subst hlock
  by_cases h : n + 1 ≥ 5 <;> simp [incLoginAttempts, isLocked, h]

/-- A login that passes validation, for a user who is not blocked and is
locked at `now`: 423, and the document is left as it is. -/
theorem login_locked (env : Env) (u : User) (req : LoginRequest) (now : Nat)
    (hvalid : loginValidation env req = []) (hblocked : u.isBlocked = false)
    (hlocked : isLocked u now = true) :
    login env (some u) req now = (accountLocked, some u) := by
  simp [login, hvalid, hblocked, hlocked, accountLocked]

/-- A run of logins splits at any point. -/
theorem loginSeq_append (env : Env) (user : Option User) (a b : List (LoginRequest × Nat)) :
    loginSeq env user (a ++ b)
      = ((loginSeq env user a).1 ++ (loginSeq env (loginSeq env user a).2 b).1,
          (loginSeq env (loginSeq env user a).2 b).2) := by
  induction a generalizing user with
  | nil => simp [loginSeq]
  | cons c a ih =>
    obtain ⟨req, now⟩ := c
    simp [loginSeq, ih]

/-- Logins with a password that does not match, for a user without a lock, as
long as the counter stays below 5: each returns 401 and adds one to the
counter, and no lock is set. -/
theorem loginSeq_wrong_passwords (env : Env) (calls : List (LoginRequest × Nat)) (u : User)
    (hblocked : u.isBlocked = false) (hlock : u.lockUntil = none)
    (hbelow : u.loginAttempts + calls.length < 5)
    (hcalls : ∀ c ∈ calls, loginValidation env c.1 = []
      ∧ env.bcryptCompare c.1.password u.password = false) :
    loginSeq env (some u) calls
      = (List.replicate calls.length (failure 401 "Invalid credentials"),
          some { u with loginAttempts := u.loginAttempts + calls.length }) := by
  induction calls generalizing u with
  | nil => simp [loginSeq]
  | cons c calls ih =>
    obtain ⟨req, now⟩ := c
    have hc := hcalls (req, now) (List.mem_cons_self _ _)
    simp only [List.length_cons] at hbelow
    have hstep := login_wrong_password_unlocked env u req now hc.1 hblocked hlock hc.2
    have hlt : ¬ (u.loginAttempts + 1 ≥ 5) := by omega
    rw [if_neg hlt] at hstep
    simp only [loginSeq, hstep]
    rw [ih { u with loginAttempts := u.loginAttempts + 1, lockUntil := none } hblocked rfl
      (by simp only; omega) (fun c hmem => hcalls c (List.mem_cons_of_mem _ hmem))]
    simp [List.replicate_succ, Nat.add_assoc, Nat.add_comm 1, hlock]

/-- C3: for a user who is not blocked, with `loginAttempts = 0` and no lock,
five consecutive logins that pass validation with a password that does not
match, at any times `t1` to `t5` (so also at non-decreasing ones), each return
401 'Invalid credentials'; the document stored after the fifth has
`lockUntil = t5 + 7200000`, and every login that passes validation at a time
before that `lockUntil` returns 423 and leaves the document as it is. -/
theorem five_wrong_passwords_lock (env : Env) (u : User)
    (r1 r2 r3 r4 r5 : LoginRequest) (t1 t2 t3 t4 t5 : Nat)
    (hblocked : u.isBlocked = false) (hattempts : u.loginAttempts = 0)
    (hlock : u.lockUntil = none)
    (hvalid : ∀ r ∈ [r1, r2, r3, r4, r5], loginValidation env r = [])
    (hwrong : ∀ r ∈ [r1, r2, r3, r4, r5], env.bcryptCompare r.password u.password = false) :
    loginSeq env (some u) [(r1, t1), (r2, t2), (r3, t3), (r4, t4), (r5, t5)]
      = (List.replicate 5 (failure 401 "Invalid credentials"),
          some { u with loginAttempts := 5, lockUntil := some (t5 + 7200000) })
    ∧ ∀ (req : LoginRequest) (t : Nat), loginValidation env req = [] → t < t5 + 7200000 →
        login env (some { u with loginAttempts := 5, lockUntil := some (t5 + 7200000) }) req t
          = (accountLocked,
              some { u with loginAttempts := 5, lockUntil := some (t5 + 7200000) }) := by
  constructor
  · have hsplit : [(r1, t1), (r2, t2), (r3, t3), (r4, t4), (r5, t5)]
        = [(r1, t1), (r2, t2), (r3, t3), (r4, t4)] ++ [(r5, t5)] := rfl
    have hfour := loginSeq_wrong_passwords env [(r1, t1), (r2, t2), (r3, t3), (r4, t4)] u
      hblocked hlock (by simp [hattempts]) (by
        intro c hc
        simp only [List.mem_cons, List.mem_singleton, List.not_mem_nil, or_false] at hc
        rcases hc with rfl | rfl | rfl | rfl <;>
          exact ⟨hvalid _ (by simp), hwrong _ (by simp)⟩)
    have hfifth := login_wrong_password_unlocked env
      { u with loginAttempts := u.loginAttempts + 4 } r5 t5
      (hvalid _ (by simp)) hblocked hlock (hwrong _ (by simp))
    rw [hsplit, loginSeq_append, hfour]
    simp only [loginSeq, List.length_cons, List.length_nil] at hfifth ⊢
    rw [hfifth]
    simp [hattempts, List.replicate]
  · intro req t hv ht
    exact login_locked env { u with loginAttempts := 5, lockUntil := some (t5 + 7200000) }
      req t hv hblocked (by simp [isLocked, ht])

/-- Witness of C3: the sample user, five wrong passwords at times 1000 to
5000. -/
theorem five_wrong_passwords_lock_witness :
    (loginSeq demoEnv (some alice)
        [(wrongLogin, 1000), (wrongLogin, 2000), (wrongLogin, 3000), (wrongLogin, 4000),
          (wrongLogin, 5000)]
      = (List.replicate 5 (failure 401 "Invalid credentials"),
          some { alice with loginAttempts := 5, lockUntil := some (5000 + 7200000) }))
    ∧ ∀ (req : LoginRequest) (t : Nat), loginValidation demoEnv req = [] →
        t < 5000 + 7200000 →
        login demoEnv (some { alice with loginAttempts := 5, lockUntil := some (5000 + 7200000) })
            req t
          = (accountLocked,
              some { alice with loginAttempts := 5, lockUntil := some (5000 + 7200000) }) :=
  five_wrong_passwords_lock demoEnv alice wrongLogin wrongLogin wrongLogin wrongLogin wrongLogin
    1000 2000 3000 4000 5000 (by decide) (by decide) (by decide) (by decide) (by decide)

/-! ### Blocked and locked accounts -/

/-- C4: for a user who is blocked or locked at `now`, a login that passes
validation returns 401 (blocked) if `isBlocked`, else 423 (locked), and leaves
the document as it is; a second run with any other non-empty password and any
other behaviour of `bcrypt.compare` returns the same response and the same
document, so the comparison is not reached. -/
theorem login_blocked_or_locked (env : Env) (u : User) (email p p' : String)
    (compare : String → String → Bool) (now : Nat)
    (h : u.isBlocked = true ∨ isLocked u now = true)
    (hemail : env.isEmail email = true) (hp : p ≠ "") (hp' : p' ≠ "") :
    login env (some u) { email := email, password := p } now
      = (if u.isBlocked then failure 401 "Account is blocked. Please contact support."
          else accountLocked, some u)
    ∧ login { env with bcryptCompare := compare } (some u) { email := email, password := p' } now
      = login env (some u) { email := email, password := p } now := by
  rcases h with h | h
  · simp [login, loginValidation, hemail, hp, hp', h]
  · cases hb : u.isBlocked <;>
      simp [login, loginValidation, hemail, hp, hp', h, hb, accountLocked]

/-- Witness of C4: the sample user, locked until 7205000, at time 6000, with a
wrong and with the right password. -/
theorem login_blocked_or_locked_witness :
    login demoEnv (some { alice with loginAttempts := 5, lockUntil := some 7205000 })
        { email := "alice@example.com", password := "guess" } 6000
      = (accountLocked, some { alice with loginAttempts := 5, lockUntil := some 7205000 })
    ∧ login { demoEnv with bcryptCompare := fun _ _ => true }
        (some { alice with loginAttempts := 5, lockUntil := some 7205000 })
        { email := "alice@example.com", password := "Abcd1234!" } 6000
      = login demoEnv (some { alice with loginAttempts := 5, lockUntil := some 7205000 })
        { email := "alice@example.com", password := "guess" } 6000 :=
  login_blocked_or_locked demoEnv { alice with loginAttempts := 5, lockUntil := some 7205000 }
    "alice@example.com" "guess" "Abcd1234!" (fun _ _ => true) 6000
    (Or.inr (by decide)) (by decide) (by decide) (by decide)

/-! ### Expired locks -/

/-- C5: for a user who is not blocked and whose lock has expired (`lockUntil`
set and earlier than `now`), one login that passes validation with a password
that does not match stores `loginAttempts = 1` and no `lockUntil`. After
fewer than four further such logins the counter is one more than their number
and no lock is set, so the account is locked at no time; the fourth further
such login, at time `t4`, stores `lockUntil = t4 + 7200000`, and the account is
locked at `t4`. -/
theorem expired_lock_restarts_counter (env : Env) (u : User) (l : Nat) (req : LoginRequest)
    (now : Nat) (calls : List (LoginRequest × Nat)) (r4 : LoginRequest) (t4 : Nat)
    (hblocked : u.isBlocked = false) (hlock : u.lockUntil = some l) (hexpired : l < now)
    (hvalid : loginValidation env req = [])
    (hwrong : env.bcryptCompare req.password u.password = false)
    (hcalls : ∀ c ∈ calls ++ [(r4, t4)], loginValidation env c.1 = []
      ∧ env.bcryptCompare c.1.password u.password = false) :
    login env (some u) req now
      = (failure 401 "Invalid credentials", some { u with loginAttempts := 1, lockUntil := none })
    ∧ (calls.length < 4 →
        loginSeq env (some { u with loginAttempts := 1, lockUntil := none }) calls
          = (List.replicate calls.length (failure 401 "Invalid credentials"),
              some { u with loginAttempts := 1 + calls.length, lockUntil := none })
        ∧ ∀ t, isLocked { u with loginAttempts := 1 + calls.length, lockUntil := none } t = false)
    ∧ (calls.length = 3 →
        loginSeq env (some { u with loginAttempts := 1, lockUntil := none }) (calls ++ [(r4, t4)])
          = (List.replicate 4 (failure 401 "Invalid credentials"),
              some { u with loginAttempts := 5, lockUntil := some (t4 + 7200000) })
        ∧ isLocked { u with loginAttempts := 5, lockUntil := some (t4 + 7200000) } t4 = true) := by
  have hfirst : calls.length < 4 →
      loginSeq env (some { u with loginAttempts := 1, lockUntil := none }) calls
        = (List.replicate calls.length (failure 401 "Invalid credentials"),
            some { u with loginAttempts := 1 + calls.length, lockUntil := none }) := by
    intro hlen
    exact loginSeq_wrong_passwords env calls { u with loginAttempts := 1, lockUntil := none }
      hblocked rfl (by simp only; omega)
      (fun c hc => hcalls c (List.mem_append_left _ hc))
  refine ⟨?_, fun hlen => ⟨hfirst hlen, fun t => by simp [isLocked]⟩, fun hlen => ⟨?_, ?_⟩⟩
  · rw [login_wrong_password env u req now hvalid hblocked
      (by simp [isLocked, hlock]; omega) hwrong]
    simp [incLoginAttempts, hlock, hexpired]
  · have hlast := hcalls (r4, t4) (by simp)
    have hfourth := login_wrong_password_unlocked env
      { u with loginAttempts := 1 + calls.length, lockUntil := none } r4 t4
      hlast.1 hblocked rfl hlast.2
    rw [loginSeq_append, hfirst (by omega)]
    simp only [loginSeq]
    rw [hfourth]
    simp [hlen, List.replicate]
  · simp [isLocked]

/-- Witness of C5: the sample user with a lock that expired at 7205000, at time
8000000, then four more wrong passwords. -/
theorem expired_lock_restarts_counter_witness :
    login demoEnv (some { alice with loginAttempts := 5, lockUntil := some 7205000 })
        wrongLogin 8000000
      = (failure 401 "Invalid credentials", some { alice with loginAttempts := 1, lockUntil := none })
    ∧ ([(wrongLogin, 8000001), (wrongLogin, 8000002), (wrongLogin, 8000003)].length < 4 →
        loginSeq demoEnv (some { alice with loginAttempts := 1, lockUntil := none })
            [(wrongLogin, 8000001), (wrongLogin, 8000002), (wrongLogin, 8000003)]
          = (List.replicate 3 (failure 401 "Invalid credentials"),
              some { alice with loginAttempts := 1 + 3, lockUntil := none })
        ∧ ∀ t, isLocked { alice with loginAttempts := 1 + 3, lockUntil := none } t = false)
    ∧ ([(wrongLogin, 8000001), (wrongLogin, 8000002), (wrongLogin, 8000003)].length = 3 →
        loginSeq demoEnv (some { alice with loginAttempts := 1, lockUntil := none })
            ([(wrongLogin, 8000001), (wrongLogin, 8000002), (wrongLogin, 8000003)]
              ++ [(wrongLogin, 8000004)])
          = (List.replicate 4 (failure 401 "Invalid credentials"),
              some { alice with loginAttempts := 5, lockUntil := some (8000004 + 7200000) })
        ∧ isLocked { alice with loginAttempts := 5, lockUntil := some (8000004 + 7200000) }
            8000004 = true) :=
  expired_lock_restarts_counter demoEnv { alice with loginAttempts := 5, lockUntil := some 7205000 }
    7205000 wrongLogin 8000000
    [(wrongLogin, 8000001), (wrongLogin, 8000002), (wrongLogin, 8000003)] wrongLogin 8000004
    (by decide) (by decide) (by decide) (by decide) (by decide) (by decide)

/-! ### Successful logins -/

/-- What `POST /login` leaves stored when it finds the document `u`. -/
theorem login_stored (env : Env) (u u' : User) (req : LoginRequest) (now : Nat)
    (h : (login env (some u) req now).2 = some u') :
    u' = u ∨ u' = incLoginAttempts u now
      ∨ u' = { u with lastLogin := now }
      ∨ u' = { resetLoginAttempts u with lastLogin := now } := by
  unfold login at h
  repeat' split at h
  all_goals simp_all
  all_goals (split at h <;> simp_all)

/-- The route `POST /verify-email` writes neither `loginAttempts` nor `lockUntil`. -/
theorem verifyEmail_lock_paths (env : Env) (token : Option Jwt) (u u' : User) (now : Nat)
    (h : (verifyEmail env token (some u) now).2 = some u') :
    u'.loginAttempts = u.loginAttempts ∧ u'.lockUntil = u.lockUntil := by
  unfold verifyEmail at h
  repeat' split at h
  all_goals simp_all
  all_goals (try subst_vars)
  all_goals (try simp_all)

/-- The route `POST /forgot-password` writes neither `loginAttempts` nor `lockUntil`. -/
theorem forgotPassword_lock_paths (env : Env) (email : String) (u u' : User)
    (delivered : Bool) (now : Nat)
    (h : (forgotPassword env email (some u) delivered now).2 = some u') :
    u'.loginAttempts = u.loginAttempts ∧ u'.lockUntil = u.lockUntil := by
  unfold forgotPassword at h
  repeat' split at h
  all_goals simp_all
  all_goals (try subst_vars)
  all_goals (try simp_all)

/-- The route `POST /reset-password` writes neither `loginAttempts` nor `lockUntil`. -/
theorem resetPassword_lock_paths (env : Env) (token : Option Jwt) (password : String)
    (u u' : User) (salt : String) (now : Nat)
    (h : (resetPassword env token password (some u) salt now).2 = some u') :
    u'.loginAttempts = u.loginAttempts ∧ u'.lockUntil = u.lockUntil := by
  unfold resetPassword at h
  repeat' split at h
  all_goals simp_all
  all_goals (try subst_vars)
  all_goals (try simp_all)

/-- After `incLoginAttempts` a lock is set only with a counter of 5 or more,
if that held before. -/
theorem incLoginAttempts_lock_counter (u : User) (now : Nat)
    (h : u.lockUntil = none ∨ 5 ≤ u.loginAttempts) :
    (incLoginAttempts u now).lockUntil = none ∨ 5 ≤ (incLoginAttempts u now).loginAttempts := by
  unfold incLoginAttempts
  split
  · simp
  · split
    · right; simp only; omega
    · rename_i hnot
      rcases h with h | h
      · left; simpa using h
      · right; simp only; omega

/-- In every document the auth routes can store, a lock is set only with a
counter of 5 or more. -/
theorem Reachable.lock_counter {env : Env} {u : User} (h : Reachable env u) :
    u.lockUntil = none ∨ 5 ≤ u.loginAttempts := by
  induction h with
  | fresh u hattempts hlock => exact Or.inl hlock
  | login u u' req now _ hstep ih =>
    rcases login_stored env u u' req now hstep with rfl | rfl | rfl | rfl
    · exact ih
    · exact incLoginAttempts_lock_counter u now ih
    · exact ih
    · exact Or.inl rfl
  | verifyEmail u u' token now _ hstep ih =>
    obtain ⟨h1, h2⟩ := verifyEmail_lock_paths env token u u' now hstep
    rw [h1, h2]; exact ih
  | forgotPassword u u' email delivered now _ hstep ih =>
    obtain ⟨h1, h2⟩ := forgotPassword_lock_paths env email u u' delivered now hstep
    rw [h1, h2]; exact ih
  | resetPassword u u' token password salt now _ hstep ih =>
    obtain ⟨h1, h2⟩ := resetPassword_lock_paths env token password u u' salt now hstep
    rw [h1, h2]; exact ih

/-- C6: for every document the auth routes can store, a login that passes
validation with the matching password, by a user who is not blocked and not
locked at `now`, returns 200 with the access token and the refresh token
generated for the user at `now`, and leaves stored `loginAttempts = 0`, no
`lockUntil` (so no expired lock either) and `lastLogin = now`, every other
path as it was. -/
theorem login_success_resets (env : Env) (u : User) (req : LoginRequest) (now : Nat)
    (hreach : Reachable env u) (hvalid : loginValidation env req = [])
    (hblocked : u.isBlocked = false) (hlocked : isLocked u now = false)
    (hmatch : comparePassword env u req.password = true) :
    login env (some u) req now
      = ({ status := 200, success := true, message := some "Login successful", code := none,
           errors := [], retryAfter := none,
           data := some
             { user := some (deletePassword (toObject { u with lastLogin := now } true now)),
               token := some (generateToken env u.id now),
               refreshToken := some (generateRefreshToken env u.id now) } },
          some { u with loginAttempts := 0, lockUntil := none, lastLogin := now }) := by
  have hinv := hreach.lock_counter
  by_cases hpos : u.loginAttempts > 0
  · simp [login, hvalid, hblocked, hlocked, hmatch, hpos, resetLoginAttempts]
  · have hzero : u.loginAttempts = 0 := by omega
    have hnone : u.lockUntil = none := by
      rcases hinv with h | h
      · exact h
      · omega
    simp [login, hvalid, hblocked, hlocked, hmatch, hzero, hnone]

/-- The sample user's locked document is one the auth routes can store: five
logins with a wrong password lead to it. -/
theorem aliceLocked_reachable : Reachable demoEnv aliceLocked :=
  Reachable.login { alice with loginAttempts := 4 } aliceLocked wrongLogin 5000
    (Reachable.login { alice with loginAttempts := 3 } _ wrongLogin 4000
      (Reachable.login { alice with loginAttempts := 2 } _ wrongLogin 3000
        (Reachable.login { alice with loginAttempts := 1 } _ wrongLogin 2000
          (Reachable.login alice _ wrongLogin 1000
            (Reachable.fresh alice rfl rfl) (by decide))
          (by decide))
        (by decide))
      (by decide))
    (by decide)

/-- Witness of C6: the sample user logs in with her password at time 8000000,
after her lock has expired. -/
theorem login_success_resets_witness :
    login demoEnv (some aliceLocked) rightLogin 8000000
      = ({ status := 200, success := true, message := some "Login successful", code := none,
           errors := [], retryAfter := none,
           data := some
             { user := some (deletePassword
                 (toObject { aliceLocked with lastLogin := 8000000 } true 8000000)),
               token := some (generateToken demoEnv aliceLocked.id 8000000),
               refreshToken := some (generateRefreshToken demoEnv aliceLocked.id 8000000) } },
          some { aliceLocked with loginAttempts := 0, lockUntil := none, lastLogin := 8000000 }) :=
  login_success_resets demoEnv aliceLocked rightLogin 8000000 aliceLocked_reachable
    (by decide) (by decide) (by decide) (by decide)

/-! ### Token kinds -/

/-- What a successful `jwt.verify` of a signed token tells: the token was signed
with the secret, and the decoded claims are its payload. -/
theorem jwtVerify_signed_ok (payload decoded : JwtPayload) (key secret : String) (now : Nat)
    (h : jwtVerify (.signed payload key) secret now = .ok decoded) :
    key = secret ∧ decoded = payload := by
  simp only [jwtVerify] at h
  split_ifs at h with hkey hexp
  simp only [Except.ok.injEq] at h
  exact ⟨not_not.mp hkey, h.symm⟩

/-- Middleware `authenticateToken` answers 401 to a signed token with a `type`
claim that is neither empty nor `'access'`. -/
theorem authenticateToken_rejects_type (env : Env) (payload : JwtPayload) (key t : String)
    (user : Option User) (now : Nat) (ht : payload.type = some t) (h1 : t ≠ "")
    (h2 : t ≠ "access") :
    ∃ r : Response, authenticateToken env (some (.signed payload key)) user now = .respond r
      ∧ r.status = 401 ∧ r.success = false ∧ r.data = none := by
  unfold authenticateToken
  simp only
  cases hver : jwtVerify (.signed payload key) env.JWT_SECRET now with
  | error e => cases e <;> simp [failure]
  | ok decoded =>
    obtain ⟨_, rfl⟩ := jwtVerify_signed_ok _ _ _ _ _ hver
    simp [ht, h1, h2, failure]

/-- Route `POST /refresh-token` answers 401 to a signed token whose `type`
claim is not `'refresh'`. -/
theorem refreshTokenRoute_rejects_type (env : Env) (payload : JwtPayload) (key : String)
    (user : Option User) (now : Nat) (ht : payload.type ≠ some "refresh") :
    (refreshTokenRoute env (some (.signed payload key)) user now).status = 401
      ∧ (refreshTokenRoute env (some (.signed payload key)) user now).success = false
      ∧ (refreshTokenRoute env (some (.signed payload key)) user now).data = none := by
  unfold refreshTokenRoute
  simp only
  cases hver : jwtVerify (.signed payload key) (refreshSecret env) now with
  | error e => cases e <;> simp [failure]
  | ok decoded =>
    obtain ⟨_, rfl⟩ := jwtVerify_signed_ok _ _ _ _ _ hver
    simp [ht, failure]

/-- Route `POST /verify-email` answers 400 to a signed token whose `type` claim
is not `'email-verification'`, and writes nothing. -/
theorem verifyEmail_rejects_type (env : Env) (payload : JwtPayload) (key : String)
    (user : Option User) (now : Nat) (ht : payload.type ≠ some "email-verification") :
    ∃ r : Response, verifyEmail env (some (.signed payload key)) user now = (r, user)
      ∧ r.status = 400 ∧ r.success = false ∧ r.data = none := by
  unfold verifyEmail
  simp only
  cases hver : jwtVerify (.signed payload key) env.JWT_SECRET now with
  | error e => cases e <;> simp [failure]
  | ok decoded =>
    obtain ⟨_, rfl⟩ := jwtVerify_signed_ok _ _ _ _ _ hver
    simp [ht, failure]

/-- Route `POST /reset-password` answers 400 to a signed token whose `type`
claim is not `'password-reset'`, and writes nothing. -/
theorem resetPassword_rejects_type (env : Env) (payload : JwtPayload) (key : String)
    (password : String) (user : Option User) (salt : String) (now : Nat)
    (ht : payload.type ≠ some "password-reset") :
    ∃ r : Response,
      resetPassword env (some (.signed payload key)) password user salt now = (r, user)
      ∧ r.status = 400 ∧ r.success = false ∧ r.data = none := by
  unfold resetPassword
  simp only
  split
  · exact ⟨_, rfl, rfl, rfl, rfl⟩
  · cases hver : jwtVerify (.signed payload key) env.JWT_SECRET now with
    | error e => cases e <;> simp [failure]
    | ok decoded =>
      obtain ⟨_, rfl⟩ := jwtVerify_signed_ok _ _ _ _ _ hver
      simp [ht, failure]

/-- C7: a token of kind `issued`, as the server issues it for any user at any
time, presented to the consumer of a different kind `expected`, is answered
with a 4xx failure response that carries no token, and the user document is
left as it is; in particular `authenticateToken` does not call `next()`. -/
theorem consume_wrong_kind (env : Env) (issued expected : TokenKind) (userId : UserId)
    (issuedAt : Nat) (user : Option User) (password salt : String) (now : Nat)
    (hkind : issued ≠ expected) :
    ∃ r : Response,
      consume env expected (some (issue env issued userId issuedAt)) user password salt now
        = (some r, user)
      ∧ 400 ≤ r.status ∧ r.status < 500 ∧ r.success = false ∧ r.data = none := by
  cases expected with
  | access =>
    have key : ∃ payload key t, issue env issued userId issuedAt = .signed payload key
        ∧ payload.type = some t ∧ t ≠ "" ∧ t ≠ "access" := by
      cases issued with
      | access => exact absurd rfl hkind
      | refresh => exact ⟨_, _, "refresh", rfl, rfl, by decide, by decide⟩
      | emailVerification => exact ⟨_, _, "email-verification", rfl, rfl, by decide, by decide⟩
      | passwordReset => exact ⟨_, _, "password-reset", rfl, rfl, by decide, by decide⟩
    obtain ⟨payload, k, t, hissue, ht, h1, h2⟩ := key
    obtain ⟨r, hr, hstatus, hsuccess, hdata⟩ :=
      authenticateToken_rejects_type env payload k t user now ht h1 h2
    refine ⟨r, ?_, by omega, by omega, hsuccess, hdata⟩
    simp [consume, hissue, hr]
  | refresh =>
    have key : ∃ payload key, issue env issued userId issuedAt = .signed payload key
        ∧ payload.type ≠ some "refresh" := by
      cases issued with
      | refresh => exact absurd rfl hkind
      | access => exact ⟨_, _, rfl, by simp⟩
      | emailVerification => exact ⟨_, _, rfl, by simp⟩
      | passwordReset => exact ⟨_, _, rfl, by simp⟩
    obtain ⟨payload, k, hissue, ht⟩ := key
    obtain ⟨hstatus, hsuccess, hdata⟩ := refreshTokenRoute_rejects_type env payload k user now ht
    refine ⟨refreshTokenRoute env (some (.signed payload k)) user now, ?_, by omega, by omega,
      hsuccess, hdata⟩
    simp [consume, hissue]
  | emailVerification =>
    have key : ∃ payload key, issue env issued userId issuedAt = .signed payload key
        ∧ payload.type ≠ some "email-verification" := by
      cases issued with
      | emailVerification => exact absurd rfl hkind
      | access => exact ⟨_, _, rfl, by simp⟩
      | refresh => exact ⟨_, _, rfl, by simp⟩
      | passwordReset => exact ⟨_, _, rfl, by simp⟩
    obtain ⟨payload, k, hissue, ht⟩ := key
    obtain ⟨r, hr, hstatus, hsuccess, hdata⟩ :=
      verifyEmail_rejects_type env payload k user now ht
    refine ⟨r, ?_, by omega, by omega, hsuccess, hdata⟩
    simp [consume, hissue, hr]
  | passwordReset =>
    have key : ∃ payload key, issue env issued userId issuedAt = .signed payload key
        ∧ payload.type ≠ some "password-reset" := by
      cases issued with
      | passwordReset => exact absurd rfl hkind
      | access => exact ⟨_, _, rfl, by simp⟩
      | refresh => exact ⟨_, _, rfl, by simp⟩
      | emailVerification => exact ⟨_, _, rfl, by simp⟩
    obtain ⟨payload, k, hissue, ht⟩ := key
    obtain ⟨r, hr, hstatus, hsuccess, hdata⟩ :=
      resetPassword_rejects_type env payload k password user salt now ht
    refine ⟨r, ?_, by omega, by omega, hsuccess, hdata⟩
    simp [consume, hissue, hr]
/-- Witness of C7: a refresh token of the sample environment presented to
`authenticateToken`. -/
theorem consume_wrong_kind_witness :
    ∃ r : Response,
      consume demoEnv .access (some (issue demoEnv .refresh 1 1000)) (some alice)
          "Abcd1234!" "salt" 2000
        = (some r, some alice)
      ∧ 400 ≤ r.status ∧ r.status < 500 ∧ r.success = false ∧ r.data = none :=
  consume_wrong_kind demoEnv .refresh .access 1 1000 (some alice) "Abcd1234!" "salt" 2000
    (by decide)

/-! ### Account enumeration -/

/-- C8, evaluated: `POST /forgot-password` at time 1000 for the address
`alice@example.com`, once with no account found and once with the sample
user's account found and the email delivered. Both responses have status 200
and `success: true`, but the messages differ, so the responses are not
identical. -/
theorem forgotPassword_responses_differ :
    (forgotPassword demoEnv "alice@example.com" none true 1000).1
      = successMessage
          "If an account with that email exists, a password reset link has been sent."
    ∧ (forgotPassword demoEnv "alice@example.com" (some alice) true 1000).1
      = successMessage "Password reset email sent successfully"
    ∧ (forgotPassword demoEnv "alice@example.com" none true 1000).1
      ≠ (forgotPassword demoEnv "alice@example.com" (some alice) true 1000).1 := by
  decide

/-- C9: the same login request gets the same response whether no account is
found or an account is found that is not blocked, not locked at `now`, and
whose password does not match; when the request passes validation this
response is 401 'Invalid credentials'. -/
theorem login_no_account_same_as_wrong_password (env : Env) (u : User) (req : LoginRequest)
    (now : Nat) (hblocked : u.isBlocked = false) (hlocked : isLocked u now = false)
    (hwrong : comparePassword env u req.password = false) :
    (login env none req now).1 = (login env (some u) req now).1
    ∧ (loginValidation env req = [] →
        (login env none req now).1 = failure 401 "Invalid credentials"
        ∧ (login env (some u) req now).1 = failure 401 "Invalid credentials") := by
  by_cases hvalid : loginValidation env req = []
  · simp [login, hvalid, hblocked, hlocked, hwrong]
  · simp [login, hvalid]

/-- Witness of C9: the sample user and a wrong password at time 1000. -/
theorem login_no_account_same_as_wrong_password_witness :
    (login demoEnv none wrongLogin 1000).1 = (login demoEnv (some alice) wrongLogin 1000).1
    ∧ (loginValidation demoEnv wrongLogin = [] →
        (login demoEnv none wrongLogin 1000).1 = failure 401 "Invalid credentials"
        ∧ (login demoEnv (some alice) wrongLogin 1000).1 = failure 401 "Invalid credentials") :=
  login_no_account_same_as_wrong_password demoEnv alice wrongLogin 1000
    (by decide) (by decide) (by decide)

/-! ### Rate limiter -/

/-- C10: a call of the rate limiter for `key` at `now` is let through exactly
when the number of timestamps stored for `key` with `now - t < windowMs`, plus
one for this attempt, is at most `maxAttempts`; equivalently, when fewer than
`maxAttempts` such timestamps are stored. -/
theorem rateLimitAction_allowed_iff (maxAttempts windowMs : Int) (attempts : Attempts)
    (key : ActorKey) (now : Nat) :
    (allowed (rateLimitAction maxAttempts windowMs attempts key now) = true
      ↔ ((((attempts key).getD []).countP
            (fun (t : Nat) => decide ((now : Int) - (t : Int) < windowMs)) : Nat) : Int) + 1
          ≤ maxAttempts)
    ∧ (allowed (rateLimitAction maxAttempts windowMs attempts key now) = true
      ↔ ((((attempts key).getD []).countP
            (fun (t : Nat) => decide ((now : Int) - (t : Int) < windowMs)) : Nat) : Int)
          < maxAttempts) := by
  simp only [rateLimitAction, allowed, List.countP_eq_length_filter]
  constructor <;> split <;> simp <;> omega

/-! ### Rate limiter: one call -/

/-- What one call stores: a call that is let through leaves, under its key, the
previous in-window timestamps followed by `now`, and every other key as it
was; a call that is denied leaves the whole `Map` as it was. -/
theorem rateLimitAction_stored (maxAttempts windowMs : Int) (attempts : Attempts)
    (key : ActorKey) (now : Nat) :
    (allowed (rateLimitAction maxAttempts windowMs attempts key now) = true →
      (rateLimitAction maxAttempts windowMs attempts key now).2 key
          = some (inWindow windowMs now ((attempts key).getD []) ++ [now])
        ∧ ∀ other, other ≠ key →
            (rateLimitAction maxAttempts windowMs attempts key now).2 other = attempts other)
    ∧ (allowed (rateLimitAction maxAttempts windowMs attempts key now) = false →
      (rateLimitAction maxAttempts windowMs attempts key now).2 = attempts) := by
  unfold rateLimitAction allowed inWindow
  simp only
  split
  · simp
  · refine ⟨fun _ => ⟨by simp, fun other hne => by simp [Function.update, hne]⟩, by simp⟩

/-! ### Rate limiter: runs of calls -/

/-- A run of rate limiter calls splits at any point. -/
theorem rateLimitSeq_append (maxAttempts windowMs : Int) (attempts : Attempts) (key : ActorKey)
    (a b : List Nat) :
    rateLimitSeq maxAttempts windowMs attempts key (a ++ b)
      = ((rateLimitSeq maxAttempts windowMs attempts key a).1
            ++ (rateLimitSeq maxAttempts windowMs
                  (rateLimitSeq maxAttempts windowMs attempts key a).2 key b).1,
          (rateLimitSeq maxAttempts windowMs
              (rateLimitSeq maxAttempts windowMs attempts key a).2 key b).2) := by
  induction a generalizing attempts with
  | nil => simp [rateLimitSeq]
  | cons t a ih => simp [rateLimitSeq, ih]

/-- A run of one call. -/
theorem rateLimitSeq_singleton (maxAttempts windowMs : Int) (attempts : Attempts)
    (key : ActorKey) (now : Nat) :
    rateLimitSeq maxAttempts windowMs attempts key [now]
      = ([allowed (rateLimitAction maxAttempts windowMs attempts key now)],
          (rateLimitAction maxAttempts windowMs attempts key now).2) := rfl

/-- Calls for one key while everything stored and everything called stays
within the window and the count stays within `maxAttempts`: every call is let
through, and the stored list grows by the times of the calls. -/
theorem rateLimitSeq_under_limit (maxAttempts windowMs : Int) (key : ActorKey)
    (times : List Nat) (attempts : Attempts)
    (hstored : ∀ s ∈ (attempts key).getD [], ∀ t ∈ times, (t : Int) - (s : Int) < windowMs)
    (hcalls : times.Pairwise (fun (a b : Nat) => (b : Int) - (a : Int) < windowMs))
    (hcount : ((((attempts key).getD []).length + times.length : Nat) : Int) ≤ maxAttempts) :
    (rateLimitSeq maxAttempts windowMs attempts key times).1
        = List.replicate times.length true
    ∧ ((rateLimitSeq maxAttempts windowMs attempts key times).2 key).getD []
        = (attempts key).getD [] ++ times := by
  induction times generalizing attempts with
  | nil => simp [rateLimitSeq]
  | cons t rest ih =>
    have hkeep : ((attempts key).getD []).filter
        (fun (s : Nat) => decide ((t : Int) - (s : Int) < windowMs)) = (attempts key).getD [] := by
      rw [List.filter_eq_self]
      intro s hs
      simpa using hstored s hs t (List.mem_cons_self _ _)
    have hlt : ¬ ((((attempts key).getD []).length : Nat) : Int) ≥ maxAttempts := by
      simp only [List.length_cons] at hcount
      push_cast at hcount ⊢
      omega
    have hstep : rateLimitAction maxAttempts windowMs attempts key t
        = (none, Function.update attempts key (some ((attempts key).getD [] ++ [t]))) := by
      simp only [rateLimitAction, hkeep, if_neg hlt]
    rw [List.pairwise_cons] at hcalls
    have hnext := ih (Function.update attempts key (some ((attempts key).getD [] ++ [t])))
      (by
        intro s hs u hu
        simp only [Function.update_same, Option.getD_some, List.mem_append,
          List.mem_singleton] at hs
        rcases hs with hs | rfl
        · exact hstored s hs u (List.mem_cons_of_mem _ hu)
        · exact hcalls.1 u hu)
      hcalls.2
      (by
        simp only [Function.update_same, Option.getD_some, List.length_append,
          List.length_singleton]
        simp only [List.length_cons] at hcount
        push_cast at hcount ⊢
        omega)
    simp only [rateLimitSeq, hstep, allowed, Option.isNone_none, List.length_cons,
      List.replicate_succ]
    refine ⟨by rw [hnext.1], ?_⟩
    rw [hnext.2]
    simp

/-- C12: with `maxAttempts = n` and a window `w`, for a key with nothing
stored, calls at non-decreasing times `t0 :: ts ++ [tlast]`, `n + 1` in number
and all less than `w` after the first (so `n ≥ 1` and `w > 0`): the first `n`
are let through and the last is denied; and a next call, at a time `later` at
least `w` after the last call that was let through, is let through. -/
theorem rateLimitSeq_fresh_key (n : Nat) (w : Int) (attempts : Attempts) (key : ActorKey)
    (t0 : Nat) (ts : List Nat) (tlast later : Nat)
    (hfresh : attempts key = none) (hlen : (t0 :: ts).length = n)
    (hsorted : (t0 :: ts ++ [tlast]).Pairwise (fun (a b : Nat) => a ≤ b))
    (hwithin : ∀ t ∈ ts ++ [tlast], (t : Int) - (t0 : Int) < w)
    (hlater : (later : Int) - (((t0 :: ts).getLast (List.cons_ne_nil _ _) : Nat) : Int) ≥ w) :
    (rateLimitSeq n w attempts key (t0 :: ts ++ [tlast])).1
        = List.replicate n true ++ [false]
    ∧ allowed (rateLimitAction n w
        (rateLimitSeq n w attempts key (t0 :: ts ++ [tlast])).2 key later) = true := by
  have hw : (0 : Int) < w := by
    have h1 := hwithin tlast (by simp)
    have h2 : t0 ≤ tlast := by
      have := (List.pairwise_cons.mp hsorted).1 tlast (by simp)
      exact this
    omega
  have hge : ∀ t ∈ t0 :: ts ++ [tlast], t0 ≤ t := by
    intro t ht
    rcases List.mem_cons.mp ht with rfl | ht
    · exact le_refl _
    · exact (List.pairwise_cons.mp hsorted).1 t ht
  have hpair : (t0 :: ts ++ [tlast]).Pairwise
      (fun (a b : Nat) => (b : Int) - (a : Int) < w) := by
    refine List.Pairwise.imp_of_mem ?_ hsorted
    intro a b ha hb hab
    have h0 := hge a ha
    rcases List.mem_cons.mp hb with rfl | hb
    · omega
    · have := hwithin b hb
      omega
  have hsplit : t0 :: ts ++ [tlast] = (t0 :: ts) ++ [tlast] := rfl
  have hpair1 : (t0 :: ts).Pairwise (fun (a b : Nat) => (b : Int) - (a : Int) < w) := by
    rw [hsplit, List.pairwise_append] at hpair
    exact hpair.1
  have hfirst := rateLimitSeq_under_limit n w key (t0 :: ts) attempts
    (by simp [hfresh]) hpair1 (by simp [hfresh] at hlen ⊢; omega)
  simp only [hfresh, Option.getD_none, List.nil_append] at hfirst
  obtain ⟨hdec, hstore⟩ := hfirst
  -- the last call finds all `n` earlier timestamps within the window
  have hkeep : (t0 :: ts).filter
      (fun (s : Nat) => decide ((tlast : Int) - (s : Int) < w)) = t0 :: ts := by
    rw [List.filter_eq_self]
    intro s hs
    rw [hsplit, List.pairwise_append] at hpair
    simpa using hpair.2.2 s hs tlast (by simp)
  have hdenied : rateLimitAction n w (rateLimitSeq n w attempts key (t0 :: ts)).2 key tlast
      = (some { status := 429, success := false,
                message := some "Too many attempts. Please try again later.",
                code := none, errors := [], data := none,
                retryAfter := some (retryAfter w) },
          (rateLimitSeq n w attempts key (t0 :: ts)).2) := by
    have hfull : ((((t0 :: ts).length : Nat) : Int)) ≥ (n : Int) := by
      rw [hlen]
    simp only [rateLimitAction, hstore, hkeep, if_pos hfull]
  -- the later call finds none of them within the window
  have hnone : (t0 :: ts).filter
      (fun (s : Nat) => decide ((later : Int) - (s : Int) < w)) = [] := by
    rw [List.filter_eq_nil_iff]
    intro s hs
    have hle : s ≤ (t0 :: ts).getLast (List.cons_ne_nil _ _) := by
      have hs1 : (t0 :: ts).Pairwise (fun (a b : Nat) => a ≤ b) := by
        rw [hsplit, List.pairwise_append] at hsorted
        exact hsorted.1
      rcases List.mem_iff_getElem.mp hs with ⟨i, hi, rfl⟩
      rw [List.getLast_eq_getElem]
      by_cases hlast : i = (t0 :: ts).length - 1
      · simp [hlast]
      · exact List.pairwise_iff_getElem.mp hs1 i ((t0 :: ts).length - 1) hi (by simp)
          (by omega)
    simp only [decide_eq_true_eq, not_lt]
    omega
  constructor
  · rw [hsplit, rateLimitSeq_append, hdec, rateLimitSeq_singleton, hdenied, hlen]
    simp [allowed]
  · rw [hsplit, rateLimitSeq_append, rateLimitSeq_singleton, hdenied]
    have hpos : ¬ (((([] : List Nat).length : Nat) : Int)) ≥ (n : Int) := by
      simp only [List.length_nil]
      simp only [List.length_cons] at hlen
      push_cast
      omega
    simp only [rateLimitAction, hstore, hnone, if_neg hpos, allowed, Option.isNone_none]

/-- Witness of C12: `maxAttempts = 3`, `windowMs = 1000`, calls at times 0, 100,
200 and 300, then a call at time 1200. -/
theorem rateLimitSeq_fresh_key_witness :
    (rateLimitSeq 3 1000 Attempts.empty (.ip "10.0.0.1") [0, 100, 200, 300]).1
        = [true, true, true, false]
    ∧ allowed (rateLimitAction 3 1000
        (rateLimitSeq 3 1000 Attempts.empty (.ip "10.0.0.1") [0, 100, 200, 300]).2
        (.ip "10.0.0.1") 1200) = true :=
  rateLimitSeq_fresh_key 3 1000 Attempts.empty (.ip "10.0.0.1") 0 [100, 200] 300 1200
    rfl rfl (by decide) (by decide) (by decide)

/-! ### The login route and the rate limiters -/

/-- The login handler answers with one of the statuses 200, 400, 401 and 423. -/
theorem login_status (env : Env) (user : Option User) (req : LoginRequest) (now : Nat) :
    (login env user req now).1.status = 200 ∨ (login env user req now).1.status = 400
    ∨ (login env user req now).1.status = 401 ∨ (login env user req now).1.status = 423 := by
  unfold login
  simp only
  repeat' split
  all_goals simp [failure, validationFailed]

/-- The count that `limiter` holds for an address after a run of requests is
the count before plus the number of requests of the address in the run. -/
theorem limiterSeq_count (senv : ServerEnv) (ips : List String) (hits : Hits) (ip : String) :
    limiterSeq senv hits ips ip = hits ip + ips.count ip := by
  induction ips generalizing hits with
  | nil => simp [limiterSeq]
  | cons a rest ih =>
    simp only [limiterSeq, ih, limiter]
    by_cases h : a = ip
    · subst h
      simp [List.count_cons]
      omega
    · have h' : ip ≠ a := fun e => h e.symm
      simp [List.count_cons, h, Function.update_noteq h']


/-- C13: the login route stands behind the limiter that `server.js` mounts on
`/api/`, and that limiter is consulted first. After the requests `earlier` of a
window, a login request is answered with the 429 of the limiter exactly when
its address has already made `max` requests or more in the window, so that
this one exceeds `max`. The 429 is then sent whatever the environment, the
body, the header `Origin`, the session and the user document of the request
are, and the document is left as it is: no user is loaded and no password
compared. A request within the limit is never answered 429: it goes on to the
body parsers, `cors`, `session` and the login handler, whose own statuses are
200, 400, 401 and 423. -/
theorem loginRoute_limiter_first (env env' : Env) (senv : ServerEnv) (earlier : List String)
    (req req' : HttpRequest) (user user' : Option User) (now now' : Nat) :
    ((loginRoute env senv (limiterSeq senv Hits.empty earlier) req user now).1
        = .tooManyRequests "Too many requests from this IP, please try again later."
      ↔ limiterMax senv ≤ (earlier.count req.ip : Int))
    ∧ (limiterMax senv ≤ (earlier.count req.ip : Int) →
        (loginRoute env senv (limiterSeq senv Hits.empty earlier) req user now).2.2 = user
        ∧ (req'.ip = req.ip →
            (loginRoute env' senv (limiterSeq senv Hits.empty earlier) req' user' now').1
              = (loginRoute env senv (limiterSeq senv Hits.empty earlier) req user now).1))
    ∧ (∀ body, (earlier.count req.ip : Int) < limiterMax senv →
        req.body = .ok body →
        (req.origin = none ∨ req.origin = some ""
          ∨ ∃ origin, req.origin = some origin ∧ origin ∈ allowedOrigins senv) →
        req.sessionError = none →
        (loginRoute env senv (limiterSeq senv Hits.empty earlier) req user now).1
            = .handled (login env user body now).1
        ∧ (loginRoute env senv (limiterSeq senv Hits.empty earlier) req user now).2.2
            = (login env user body now).2)
    ∧ (loginRoute env senv (limiterSeq senv Hits.empty earlier) req user now).2.1 req.ip
        = earlier.count req.ip + 1
    ∧ (∀ body, (login env user body now).1.status ≠ 429) := by
  have hlim : ∀ ip, limiter senv (limiterSeq senv Hits.empty earlier) ip
      = (decide ((earlier.count ip : Int) + 1 ≤ limiterMax senv),
          Function.update (limiterSeq senv Hits.empty earlier) ip (earlier.count ip + 1)) := by
    intro ip
    simp [limiter, limiterSeq_count, Hits.empty]
  refine ⟨?_, ?_, ?_, ?_, ?_⟩
  · unfold loginRoute
    simp only [hlim]
    by_cases h : limiterMax senv ≤ (earlier.count req.ip : Int)
    · have hdec : decide ((earlier.count req.ip : Int) + 1 ≤ limiterMax senv) = false := by
        rw [decide_eq_false_iff_not]
        omega
      simp [h, hdec, limiterMessage]
    · have hdec : decide ((earlier.count req.ip : Int) + 1 ≤ limiterMax senv) = true := by
        rw [decide_eq_true_eq]
        omega
      simp only [hdec, Bool.true_eq_false, if_false, h, iff_false]
      repeat' split
      all_goals simp
  · intro h
    have hdec : decide ((earlier.count req.ip : Int) + 1 ≤ limiterMax senv) = false := by
      rw [decide_eq_false_iff_not]
      omega
    refine ⟨by simp [loginRoute, hlim, hdec], fun hip => ?_⟩
    simp [loginRoute, hlim, hdec, hip]
  · intro body h hbody horigin hsession
    have hdec : decide ((earlier.count req.ip : Int) + 1 ≤ limiterMax senv) = true := by
      rw [decide_eq_true_eq]
      omega
    rcases horigin with ho | ho | ⟨origin, ho, hmem⟩
    · simp [loginRoute, hlim, hdec, hbody, ho, hsession]
    · simp [loginRoute, hlim, hdec, hbody, ho, hsession]
    · simp [loginRoute, hlim, hdec, hbody, ho, hsession, hmem]
  · unfold loginRoute
    simp only [hlim]
    repeat' split
    all_goals simp
  · intro body
    rcases login_status env user body now with h | h | h | h <;> rw [h] <;> decide

/-! ### What one auth request leaves of a user document -/

/-- A login writes none of `_id`, `password` and `verification`. -/
theorem stepOp_login (env : Env) (u : User) (req : LoginRequest) (now : Nat) :
    (stepOp env u (.login req) now).id = u.id
    ∧ (stepOp env u (.login req) now).password = u.password
    ∧ (stepOp env u (.login req) now).verification = u.verification := by
  unfold stepOp
  simp only
  cases h : (login env (some u) req now).2 with
  | none => simp
  | some u' =>
    rcases login_stored env u u' req now h with rfl | rfl | rfl | rfl
    · simp
    · simp only [Option.getD_some]
      unfold incLoginAttempts
      repeat' split
      all_goals simp
    · simp
    · simp [resetLoginAttempts]

/-- A verify-email request writes neither `_id` nor `password`, and leaves a
verified document as it is. -/
theorem stepOp_verifyEmail (env : Env) (u : User) (token : Option Jwt) (now : Nat) :
    (stepOp env u (.verifyEmail token) now).id = u.id
    ∧ (stepOp env u (.verifyEmail token) now).password = u.password
    ∧ (u.verification.email.verified = true →
        (stepOp env u (.verifyEmail token) now).verification.email.verified = true) := by
  unfold stepOp verifyEmail
  simp only
  repeat' split
  all_goals simp_all

/-- A forgot-password request writes none of `_id`, `password` and
`verification.email.verified`, and it leaves `verification.email.expiresAt` as
it is or sets it to `now + 3600000`. -/
theorem stepOp_forgotPassword (env : Env) (u : User) (email : String) (delivered : Bool)
    (now : Nat) :
    (stepOp env u (.forgotPassword email delivered) now).id = u.id
    ∧ (stepOp env u (.forgotPassword email delivered) now).password = u.password
    ∧ (stepOp env u (.forgotPassword email delivered) now).verification.email.verified
        = u.verification.email.verified
    ∧ ((stepOp env u (.forgotPassword email delivered) now).verification.email.expiresAt
          = u.verification.email.expiresAt
        ∨ (stepOp env u (.forgotPassword email delivered) now).verification.email.expiresAt
          = some (now + 3600000)) := by
  unfold stepOp forgotPassword
  simp only
  repeat' split
  all_goals simp_all

/-- A reset-password request writes neither `_id` nor
`verification.email.verified`, and it leaves `verification.email.expiresAt` as
it is or unset. -/
theorem stepOp_resetPassword (env : Env) (u : User) (token : Option Jwt)
    (password salt : String) (now : Nat) :
    (stepOp env u (.resetPassword token password salt) now).id = u.id
    ∧ (stepOp env u (.resetPassword token password salt) now).verification.email.verified
        = u.verification.email.verified
    ∧ ((stepOp env u (.resetPassword token password salt) now).verification.email.expiresAt
          = u.verification.email.expiresAt
        ∨ (stepOp env u (.resetPassword token password salt) now).verification.email.expiresAt
          = none) := by
  unfold stepOp resetPassword
  simp only
  repeat' split
  all_goals simp_all

/-- No auth request takes `verification.email.verified` back. -/
theorem runOps_verified (env : Env) (ops : List (AuthOp × Nat)) (u : User)
    (h : u.verification.email.verified = true) :
    (runOps env u ops).verification.email.verified = true := by
  induction ops generalizing u with
  | nil => exact h
  | cons c ops ih =>
    obtain ⟨op, now⟩ := c
    apply ih
    cases op with
    | login req => rw [(stepOp_login env u req now).2.2]; exact h
    | verifyEmail token => exact (stepOp_verifyEmail env u token now).2.2 h
    | forgotPassword email delivered =>
      rw [(stepOp_forgotPassword env u email delivered now).2.2.1]; exact h
    | resetPassword token password salt =>
      rw [(stepOp_resetPassword env u token password salt now).2.1]; exact h

/-- Requests after which the registration token can still verify at time `T`
keep `_id`, keep an unverified document unverified, and leave its stored
expiry unset or not earlier than `T`, if it was so before. -/
theorem runOps_verifiable (env : Env) (T : Nat) (ops : List (AuthOp × Nat)) (u : User)
    (hops : ∀ c ∈ ops, verifiableAfter T c = true)
    (hverified : u.verification.email.verified = false)
    (hexpiry : expired u.verification.email.expiresAt T = false) :
    (runOps env u ops).id = u.id
    ∧ (runOps env u ops).verification.email.verified = false
    ∧ expired (runOps env u ops).verification.email.expiresAt T = false := by
  induction ops generalizing u with
  | nil => exact ⟨rfl, hverified, hexpiry⟩
  | cons c ops ih =>
    obtain ⟨op, now⟩ := c
    have hop := hops (op, now) (List.mem_cons_self _ _)
    have hrest : ∀ c ∈ ops, verifiableAfter T c = true :=
      fun c hc => hops c (List.mem_cons_of_mem _ hc)
    simp only [runOps]
    cases op with
    | login req =>
      obtain ⟨h1, _, h3⟩ := stepOp_login env u req now
      have := ih (stepOp env u (.login req) now) hrest (by rw [h3]; exact hverified)
        (by rw [h3]; exact hexpiry)
      rw [h1] at this
      exact this
    | resetPassword token password salt =>
      obtain ⟨h1, h2, h3⟩ := stepOp_resetPassword env u token password salt now
      have := ih (stepOp env u (.resetPassword token password salt) now) hrest
        (by rw [h2]; exact hverified)
        (by
          rcases h3 with h3 | h3
          · rw [h3]; exact hexpiry
          · rw [h3]; rfl)
      rw [h1] at this
      exact this
    | forgotPassword email delivered =>
      obtain ⟨h1, _, h2, h3⟩ := stepOp_forgotPassword env u email delivered now
      have hT : T ≤ now + 3600000 := by simpa [verifiableAfter] using hop
      have := ih (stepOp env u (.forgotPassword email delivered) now) hrest
        (by rw [h2]; exact hverified)
        (by
          rcases h3 with h3 | h3
          · rw [h3]; exact hexpiry
          · rw [h3]
            simp only [expired, decide_eq_false_iff_not]
            omega)
      rw [h1] at this
      exact this
    | verifyEmail token => simp [verifiableAfter] at hop

/-- Requests other than password resets keep the stored password. -/
theorem runOps_password (env : Env) (ops : List (AuthOp × Nat)) (u : User)
    (hops : ∀ c ∈ ops, c.1.keepsPassword = true) :
    (runOps env u ops).password = u.password := by
  induction ops generalizing u with
  | nil => rfl
  | cons c ops ih =>
    obtain ⟨op, now⟩ := c
    have hop := hops (op, now) (List.mem_cons_self _ _)
    simp only [runOps]
    rw [ih _ (fun c hc => hops c (List.mem_cons_of_mem _ hc))]
    cases op with
    | login req => exact (stepOp_login env u req now).2.1
    | verifyEmail token => exact (stepOp_verifyEmail env u token now).2.1
    | forgotPassword email delivered => exact (stepOp_forgotPassword env u email delivered now).2.1
    | resetPassword token password salt => simp [AuthOp.keepsPassword] at hop

/-- What `POST /register` has done when it has added the document `u` to the
collection: the request passed validation, no user with the email or the phone
was found, the email matches the schema, the answer is 201, and `u` is the new
document with its password hashed. -/
theorem register_created (env : Env) (san : Sanitizers) (users : List User)
    (req : RegisterRequest) (newId : UserId) (salt : String) (delivered : Bool) (now : Nat)
    (u : User)
    (h : (register env san users req newId salt delivered now).2 = users ++ [u]) :
    registerValidation env san req = []
    ∧ findOneByEmailOrPhone users (san.toLowerCase (san.normalizeEmail req.email)) req.phone
        = none
    ∧ schemaValidation
        (newUser env newId (san.trim req.firstName) (san.trim req.lastName)
          (san.toLowerCase (san.normalizeEmail req.email)) req.phone req.password now) = []
    ∧ (register env san users req newId salt delivered now).1.status = 201
    ∧ u = preSavePassword env true
        (newUser env newId (san.trim req.firstName) (san.trim req.lastName)
          (san.toLowerCase (san.normalizeEmail req.email)) req.phone req.password now) salt := by
  unfold register at h ⊢
  simp only at h ⊢
  repeat' split at h
  all_goals simp_all

/-! ### Email verification -/

/-- C14, at concrete inputs. First: the sample user registers at time 0, asks
for a password reset at time 1000, and presents her registration token to
verify-email at time 3700000, well before 24 hours: the answer is 400
'Verification token expired', because forgot-password has replaced the stored
expiry by 1000 + 3600000. Second: she registers at time 999 and presents the
token at time 86400000, still before 999 + 86400000: the answer is again 400
'Verification token expired', because the token's `exp` counts from the second
of issue. -/
theorem verifyEmail_fails_within_day :
    (register demoEnv demoSanitizers [] aliceRequest 1 "salt" true 0).2 = [aliceRegistered 0]
    ∧ 3700000 < 0 + 86400000
    ∧ verifyEmail demoEnv (some (verificationToken demoEnv 1 0))
        (some (stepOp demoEnv (aliceRegistered 0) (.forgotPassword "alice@example.com" true) 1000))
        3700000
      = (failure 400 "Verification token expired",
          some (stepOp demoEnv (aliceRegistered 0) (.forgotPassword "alice@example.com" true)
            1000))
    ∧ (register demoEnv demoSanitizers [] aliceRequest 1 "salt" true 999).2
        = [aliceRegistered 999]
    ∧ 86400000 < 999 + 86400000
    ∧ verifyEmail demoEnv (some (verificationToken demoEnv 1 999)) (some (aliceRegistered 999))
        86400000
      = (failure 400 "Verification token expired", some (aliceRegistered 999)) := by
  decide

/-- C14, amended: for a user whom `POST /register` stored at time `t`,
verify-email with the token issued at that registration succeeds at every
time `T` less than 24 hours after the second of `t`
(`T < ⌊t / 1000⌋ * 1000 + 86400000`), after any logins, any password resets,
and any forgot-password requests made at times `t1` with `T ≤ t1 + 3600000` on
the account: the answer is 200 and the document is stored verified, with the
pending token and expiry cleared. (A forgot-password replaces the stored
expiry by `t1 + 3600000`; once that is earlier than `T`, verify-email fails.) -/
theorem verifyEmail_within_day (env : Env) (san : Sanitizers) (users : List User)
    (req : RegisterRequest) (newId : UserId) (salt : String) (delivered : Bool) (t : Nat)
    (u : User) (ops : List (AuthOp × Nat)) (T : Nat)
    (hregistered : (register env san users req newId salt delivered t).2 = users ++ [u])
    (hops : ∀ c ∈ ops, verifiableAfter T c = true)
    (hT : T < t / 1000 * 1000 + 86400000) :
    verifyEmail env (some (verificationToken env newId t)) (some (runOps env u ops)) T
      = (successMessage "Email verified successfully",
          some { runOps env u ops with
            verification := { email := { verified := true, token := none,
                                         expiresAt := none } } }) := by
  obtain ⟨_, _, _, _, hu⟩ := register_created env san users req newId salt delivered t u
    hregistered
  have hverified : u.verification.email.verified = false := by
    rw [hu]; simp [preSavePassword, newUser]
  have hexpiry : expired u.verification.email.expiresAt T = false := by
    rw [hu]
    simp only [preSavePassword, newUser, expired, Bool.true_eq_false, if_false,
      decide_eq_false_iff_not]
    omega
  obtain ⟨_, hv, he⟩ := runOps_verifiable env T ops u hops hverified hexpiry
  have hlive : ¬ (T / 1000 ≥ t / 1000 + 24 * 60 * 60) := by omega
  simp [verifyEmail, verificationToken, jwtSign, jwtVerify, hlive, hv, he]

/-- Witness of C14 as amended: the sample user registers at time 0, fails a
login at time 1000, asks for a password reset at time 86000000, and verifies
her email at time 86399999. -/
theorem verifyEmail_within_day_witness :
    verifyEmail demoEnv (some (verificationToken demoEnv 1 0))
        (some (runOps demoEnv (aliceRegistered 0)
          [(.login wrongLogin, 1000), (.forgotPassword "alice@example.com" true, 86000000)]))
        86399999
      = (successMessage "Email verified successfully",
          some { runOps demoEnv (aliceRegistered 0)
                  [(.login wrongLogin, 1000),
                    (.forgotPassword "alice@example.com" true, 86000000)] with
            verification := { email := { verified := true, token := none,
                                         expiresAt := none } } }) :=
  verifyEmail_within_day demoEnv demoSanitizers [] aliceRequest 1 "salt" true 0
    (aliceRegistered 0)
    [(.login wrongLogin, 1000), (.forgotPassword "alice@example.com" true, 86000000)]
    86399999 (by decide) (by decide) (by decide)

/-! ### Tokens: what they encode and how long they last -/

/-- C15: a refresh token that `generateRefreshToken` produced for `id` at time
`issuedAt`, presented to `POST /refresh-token`. At a time `before` its expiry
(`exp` seconds, by default thirty days after the second of issue), when the
user with that id is found and active, the answer is 200 with a new access
token and a new refresh token whose `userId` is the same id; at a time `after`
its expiry the answer is 401 'Refresh token expired', which carries no token,
whatever user is found. -/
theorem refreshToken_before_and_after_expiry (env : Env) (id : UserId) (u : User)
    (user : Option User) (issuedAt before after : Nat)
    (hid : u.id = id) (hactive : u.isActive = true)
    (hbefore : before < (issuedAt / 1000 + env.JWT_REFRESH_EXPIRE.getD 2592000) * 1000)
    (hafter : (issuedAt / 1000 + env.JWT_REFRESH_EXPIRE.getD 2592000) * 1000 ≤ after) :
    refreshTokenRoute env (some (generateRefreshToken env id issuedAt)) (some u) before
      = { status := 200, success := true, message := some "Token refreshed successfully",
          code := none, errors := [], retryAfter := none,
          data := some
            { user := none,
              token := some (.signed
                { userId := id, type := none, iat := before / 1000,
                  exp := before / 1000 + env.JWT_EXPIRE.getD 604800 } env.JWT_SECRET),
              refreshToken := some (.signed
                { userId := id, type := some "refresh", iat := before / 1000,
                  exp := before / 1000 + env.JWT_REFRESH_EXPIRE.getD 2592000 }
                (refreshSecret env)) } }
    ∧ refreshTokenRoute env (some (generateRefreshToken env id issuedAt)) user after
      = failure 401 "Refresh token expired"
    ∧ (failure 401 "Refresh token expired").data = none := by
  subst hid
  have hlive : ¬ (before / 1000 ≥ issuedAt / 1000 + env.JWT_REFRESH_EXPIRE.getD 2592000) := by
    omega
  have hdead : after / 1000 ≥ issuedAt / 1000 + env.JWT_REFRESH_EXPIRE.getD 2592000 := by
    omega
  refine ⟨?_, ?_, rfl⟩
  · simp [refreshTokenRoute, generateRefreshToken, generateToken, jwtSign, jwtVerify, hlive,
      hactive]
  · simp [refreshTokenRoute, generateRefreshToken, jwtSign, jwtVerify, hdead]

/-- Witness of C15: the sample user, a refresh token issued at time 1000,
presented at time 5000 and again at time 2592001000. -/
theorem refreshToken_before_and_after_expiry_witness :
    refreshTokenRoute demoEnv (some (generateRefreshToken demoEnv 1 1000)) (some alice) 5000
      = { status := 200, success := true, message := some "Token refreshed successfully",
          code := none, errors := [], retryAfter := none,
          data := some
            { user := none,
              token := some (.signed
                { userId := 1, type := none, iat := 5000 / 1000,
                  exp := 5000 / 1000 + demoEnv.JWT_EXPIRE.getD 604800 } demoEnv.JWT_SECRET),
              refreshToken := some (.signed
                { userId := 1, type := some "refresh", iat := 5000 / 1000,
                  exp := 5000 / 1000 + demoEnv.JWT_REFRESH_EXPIRE.getD 2592000 }
                (refreshSecret demoEnv)) } }
    ∧ refreshTokenRoute demoEnv (some (generateRefreshToken demoEnv 1 1000)) (some alice)
        2592001000
      = failure 401 "Refresh token expired"
    ∧ (failure 401 "Refresh token expired").data = none :=
  refreshToken_before_and_after_expiry demoEnv 1 alice (some alice) 1000 5000 2592001000
    rfl rfl (by decide) (by decide)

/-- C16, at a concrete input: the access token that `generateToken` issues for
user 1 at time 1000 carries `userId`, `iat` and `exp` and no `type` claim, so it
has no kind discriminator. -/
theorem access_token_has_no_type :
    issue demoEnv .access 1 1000
      = .signed { userId := 1, type := none, iat := 1, exp := 604801 } "secret" := by
  decide

/-- C16, amended: every token the server issues, of each of the four kinds,
encodes the user id and an expiry (`exp`, the time of issue in seconds plus the
lifetime of the kind); a refresh, email-verification or password-reset token
also carries a `type` claim that names its kind, and an access token carries
none. -/
theorem issue_encodes (env : Env) (kind : TokenKind) (userId : UserId) (now : Nat) :
    issue env kind userId now
      = .signed { userId := userId, type := typeClaim kind, iat := now / 1000,
                  exp := now / 1000 + lifetime env kind } (signingSecret env kind)
    ∧ (kind ≠ .access → (typeClaim kind).isSome = true)
    ∧ typeClaim .access = none := by
  cases kind <;>
    simp [issue, generateToken, generateRefreshToken, verificationToken, resetToken, jwtSign,
      typeClaim, lifetime, signingSecret]

/-! ### Reset password -/

/-- Whatever `POST /reset-password` answers with `success: false`, it leaves
the user document as it found it. -/
theorem resetPassword_failure_unchanged (env : Env) (token : Option Jwt) (password : String)
    (user : Option User) (salt : String) (now : Nat)
    (hfail : (resetPassword env token password user salt now).1.success = false) :
    (resetPassword env token password user salt now).2 = user := by
  unfold resetPassword at hfail ⊢
  repeat' split
  all_goals simp_all [successMessage]

/-- C17: a reset-password call at time `now` with the password-reset token
issued at `issuedAt`, at least one hour earlier, is answered with 400 (with the
message 'Reset token expired' when the new password passes validation) and
leaves the user document, the stored password included, as it was; and every
reset-password call answered with `success: false` leaves the user document as
it was. -/
theorem resetPassword_expired_token (env : Env) (id : UserId) (issuedAt now : Nat)
    (password : String) (user : Option User) (salt : String)
    (helapsed : issuedAt + 60 * 60 * 1000 ≤ now) :
    (resetPassword env (some (resetToken env id issuedAt)) password user salt now).1.status = 400
    ∧ (passwordValidation password = [] →
        (resetPassword env (some (resetToken env id issuedAt)) password user salt now).1
          = failure 400 "Reset token expired")
    ∧ (resetPassword env (some (resetToken env id issuedAt)) password user salt now).2 = user
    ∧ ∀ (token' : Option Jwt) (password' salt' : String) (user' : Option User) (now' : Nat),
        (resetPassword env token' password' user' salt' now').1.success = false →
        (resetPassword env token' password' user' salt' now').2 = user' := by
  have hdead : now / 1000 ≥ issuedAt / 1000 + 60 * 60 := by omega
  refine ⟨?_, ?_, ?_, fun token' password' salt' user' now' h =>
    resetPassword_failure_unchanged env token' password' user' salt' now' h⟩
  · by_cases hv : passwordValidation password = [] <;>
      simp [resetPassword, resetToken, jwtSign, jwtVerify, hdead, hv, failure, validationFailed]
  · intro hv
    simp [resetPassword, resetToken, jwtSign, jwtVerify, hdead, hv]
  · by_cases hv : passwordValidation password = [] <;>
      simp [resetPassword, resetToken, jwtSign, jwtVerify, hdead, hv]

/-- Witness of C17: the sample user's reset token of time 1000 presented at
time 3601000 with a valid new password. -/
theorem resetPassword_expired_token_witness :
    (resetPassword demoEnv (some (resetToken demoEnv 1 1000)) "Wxyz5678?" (some alice) "salt"
        3601000).1.status = 400
    ∧ (passwordValidation "Wxyz5678?" = [] →
        (resetPassword demoEnv (some (resetToken demoEnv 1 1000)) "Wxyz5678?" (some alice) "salt"
            3601000).1
          = failure 400 "Reset token expired")
    ∧ (resetPassword demoEnv (some (resetToken demoEnv 1 1000)) "Wxyz5678?" (some alice) "salt"
        3601000).2 = some alice
    ∧ ∀ (token' : Option Jwt) (password' salt' : String) (user' : Option User) (now' : Nat),
        (resetPassword demoEnv token' password' user' salt' now').1.success = false →
        (resetPassword demoEnv token' password' user' salt' now').2 = user' :=
  resetPassword_expired_token demoEnv 1 1000 3601000 "Wxyz5678?" (some alice) "salt" (by decide)

/-! ### Email verification, once -/

/-- C18: a verify-email request answered with `success: true` stores the
document with `verification.email.verified = true` and the pending token and
expiry cleared, every other path as it was; after that, and after any further
auth requests on the account, a verify-email request with a token that
verifies as an email-verification token is answered with 400 'Email already
verified' and leaves the document as it is. -/
theorem verifyEmail_once (env : Env) (token : Option Jwt) (u : User) (now : Nat)
    (ops : List (AuthOp × Nat)) (token' : Jwt) (decoded : JwtPayload) (later : Nat)
    (hsuccess : (verifyEmail env token (some u) now).1.success = true)
    (hverifies : jwtVerify token' env.JWT_SECRET later = .ok decoded)
    (htype : decoded.type = some "email-verification") :
    verifyEmail env token (some u) now
      = (successMessage "Email verified successfully",
          some { u with
            verification := { email := { verified := true, token := none,
                                         expiresAt := none } } })
    ∧ verifyEmail env (some token')
        (some (runOps env { u with
          verification := { email := { verified := true, token := none,
                                       expiresAt := none } } } ops)) later
      = (failure 400 "Email already verified",
          some (runOps env { u with
            verification := { email := { verified := true, token := none,
                                         expiresAt := none } } } ops)) := by
  constructor
  · unfold verifyEmail at hsuccess ⊢
    repeat' split
    all_goals simp_all [failure]
  · have hv := runOps_verified env ops { u with
      verification := { email := { verified := true, token := none, expiresAt := none } } } rfl
    simp [verifyEmail, hverifies, htype, hv]

/-- Witness of C18: the sample user, registered at time 0, verifies her email at
time 5000, asks for a password reset at time 6000, and presents the
registration token again at time 7000. -/
theorem verifyEmail_once_witness :
    verifyEmail demoEnv (some (verificationToken demoEnv 1 0)) (some (aliceRegistered 0)) 5000
      = (successMessage "Email verified successfully",
          some { aliceRegistered 0 with
            verification := { email := { verified := true, token := none,
                                         expiresAt := none } } })
    ∧ verifyEmail demoEnv (some (verificationToken demoEnv 1 0))
        (some (runOps demoEnv { aliceRegistered 0 with
          verification := { email := { verified := true, token := none,
                                       expiresAt := none } } }
          [(.forgotPassword "alice@example.com" true, 6000)])) 7000
      = (failure 400 "Email already verified",
          some (runOps demoEnv { aliceRegistered 0 with
            verification := { email := { verified := true, token := none,
                                         expiresAt := none } } }
            [(.forgotPassword "alice@example.com" true, 6000)])) :=
  verifyEmail_once demoEnv (some (verificationToken demoEnv 1 0)) (aliceRegistered 0) 5000
    [(.forgotPassword "alice@example.com" true, 6000)] (verificationToken demoEnv 1 0)
    { userId := 1, type := some "email-verification", iat := 0, exp := 86400 } 7000
    (by decide) rfl rfl

/-! ### Registration -/

/-- C19: when `POST /register` has stored the user `u` for a request with the
plaintext password `p`, the stored password is `bcrypt.hash(p, salt)`; given
that bcrypt does not return `p` itself and that `bcrypt.compare` accepts `p`
against its hash, the stored password is not `p` and `comparePassword(p)` is
true. After any later logins, verify-email and forgot-password requests the
stored password is still that hash and `comparePassword(p)` is still true: the
pre-save hook leaves a document whose password was not modified as it is. -/
theorem register_stores_hash (env : Env) (san : Sanitizers) (users : List User)
    (req : RegisterRequest) (newId : UserId) (salt : String) (delivered : Bool) (now : Nat)
    (u : User) (ops : List (AuthOp × Nat))
    (hregistered : (register env san users req newId salt delivered now).2 = users ++ [u])
    (hhash : env.bcryptHash req.password salt ≠ req.password)
    (hcompare : env.bcryptCompare req.password (env.bcryptHash req.password salt) = true)
    (hops : ∀ c ∈ ops, c.1.keepsPassword = true) :
    u.password = env.bcryptHash req.password salt
    ∧ u.password ≠ req.password
    ∧ comparePassword env u req.password = true
    ∧ (runOps env u ops).password = env.bcryptHash req.password salt
    ∧ comparePassword env (runOps env u ops) req.password = true
    ∧ ∀ (v : User) (salt' : String), preSavePassword env false v salt' = v := by
  obtain ⟨_, _, _, _, hu⟩ := register_created env san users req newId salt delivered now u
    hregistered
  have hpw : u.password = env.bcryptHash req.password salt := by
    rw [hu]; simp [preSavePassword, newUser]
  have hlater := runOps_password env ops u hops
  refine ⟨hpw, ?_, ?_, ?_, ?_, fun v salt' => by simp [preSavePassword]⟩
  · rw [hpw]; exact hhash
  · simp [comparePassword, hpw, hcompare]
  · rw [hlater, hpw]
  · simp [comparePassword, hlater, hpw, hcompare]

/-- Witness of C19: the sample user registers at time 0, then fails a login,
asks for a password reset and verifies her email. -/
theorem register_stores_hash_witness :
    (aliceRegistered 0).password = demoEnv.bcryptHash aliceRequest.password "salt"
    ∧ (aliceRegistered 0).password ≠ aliceRequest.password
    ∧ comparePassword demoEnv (aliceRegistered 0) aliceRequest.password = true
    ∧ (runOps demoEnv (aliceRegistered 0)
          [(.login wrongLogin, 1000), (.forgotPassword "alice@example.com" true, 2000),
            (.verifyEmail (some (verificationToken demoEnv 1 0)), 3000)]).password
        = demoEnv.bcryptHash aliceRequest.password "salt"
    ∧ comparePassword demoEnv
        (runOps demoEnv (aliceRegistered 0)
          [(.login wrongLogin, 1000), (.forgotPassword "alice@example.com" true, 2000),
            (.verifyEmail (some (verificationToken demoEnv 1 0)), 3000)])
        aliceRequest.password = true
    ∧ ∀ (v : User) (salt' : String), preSavePassword demoEnv false v salt' = v :=
  register_stores_hash demoEnv demoSanitizers [] aliceRequest 1 "salt" true 0 (aliceRegistered 0)
    [(.login wrongLogin, 1000), (.forgotPassword "alice@example.com" true, 2000),
      (.verifyEmail (some (verificationToken demoEnv 1 0)), 3000)]
    (by decide) (by decide) (by decide) (by decide)

/-- What the query of `POST /register` finds. -/
theorem findOneByEmailOrPhone_some (users : List User) (email phone : String) (v : User)
    (hv : v ∈ users) (hmatch : v.email = email ∨ v.phone = phone) :
    ∃ existing, findOneByEmailOrPhone users email phone = some existing
      ∧ existing ∈ users ∧ (existing.email = email ∨ existing.phone = phone) := by
  unfold findOneByEmailOrPhone
  cases h : users.find? (fun u => u.email == email || u.phone == phone) with
  | none =>
    rw [List.find?_eq_none] at h
    have := h v hv
    simp at this
    rcases hmatch with h1 | h1
    · exact absurd h1 this.1
    · exact absurd h1 this.2
  | some existing =>
    refine ⟨existing, rfl, List.mem_of_find?_eq_some h, ?_⟩
    have := List.find?_some h
    simpa using this

/-- C20: `POST /register` on the collection `users`, with `email` the
normalised, lower-cased email of the request. When a user with that email or
with the phone of the request exists, the answer is 400 and the collection is
left as it is; if the request passes validation, the message is 'Email already
registered' when the email of the user that the query finds matches, and
'Phone number already registered' otherwise. When no such user exists and the
request passes the validators of the route, the user is created, with
`verified = false`, the verification token of this registration pending and
expiry `now + 86400000`, only if the new document also passes the validation
of the schema. It need not: the address `alice@example.info` passes `isEmail`
but not the `match` pattern of the schema, whose last label has two or three
characters, and a first name of 26 characters outside the Basic Multilingual
Plane passes `isLength({ max: 50 })` but not `maxlength` 50 of the schema, which
counts 52 code units. For both requests, valid for the route and with no user
of that email or phone, the answer is 500 'Registration failed. Please try
again.' and no user is created. -/
theorem register_valid_input_fails :
    (∀ (env : Env) (san : Sanitizers) (users : List User) (req : RegisterRequest)
        (newId : UserId) (salt : String) (delivered : Bool) (now : Nat),
      (∃ v ∈ users, v.email = san.toLowerCase (san.normalizeEmail req.email)
          ∨ v.phone = req.phone) →
      (register env san users req newId salt delivered now).1.status = 400
      ∧ (register env san users req newId salt delivered now).2 = users
      ∧ (registerValidation env san req = [] →
          ∃ existing,
            findOneByEmailOrPhone users (san.toLowerCase (san.normalizeEmail req.email))
              req.phone = some existing
            ∧ existing ∈ users
            ∧ (register env san users req newId salt delivered now).1
                = failure 400
                    (if existing.email = san.toLowerCase (san.normalizeEmail req.email)
                      then "Email already registered"
                      else "Phone number already registered")))
    ∧ (∀ (env : Env) (san : Sanitizers) (users : List User) (req : RegisterRequest)
        (newId : UserId) (salt : String) (delivered : Bool) (now : Nat),
      (∀ v ∈ users, v.email ≠ san.toLowerCase (san.normalizeEmail req.email)
          ∧ v.phone ≠ req.phone) →
      registerValidation env san req = [] →
      schemaValidation
        (newUser env newId (san.trim req.firstName) (san.trim req.lastName)
          (san.toLowerCase (san.normalizeEmail req.email)) req.phone req.password now) = [] →
      (register env san users req newId salt delivered now).1.status = 201
      ∧ ∃ created : User,
          (register env san users req newId salt delivered now).2 = users ++ [created]
          ∧ created.email = san.toLowerCase (san.normalizeEmail req.email)
          ∧ created.phone = req.phone
          ∧ created.verification.email
              = { verified := false, token := some (verificationToken env newId now),
                  expiresAt := some (now + 86400000) })
    ∧ (registerValidation infoEnv demoSanitizers infoRequest = []
        ∧ register infoEnv demoSanitizers [] infoRequest 1 "salt" true 0
            = (failure 500 "Registration failed. Please try again.", [])
        ∧ schemaValidation
            (newUser infoEnv 1 "Alice" "Liddell" "alice@example.info" "919876543210"
              "Abcd1234!" 0) = ["email"])
    ∧ (registerValidation demoEnv demoSanitizers astralRequest = []
        ∧ register demoEnv demoSanitizers [] astralRequest 1 "salt" true 0
            = (failure 500 "Registration failed. Please try again.", [])
        ∧ schemaValidation
            (newUser demoEnv 1 astralRequest.firstName "Liddell" "alice@example.com"
              "919876543210" "Abcd1234!" 0) = ["firstName"]) := by
  refine ⟨?_, ?_, by decide, by decide⟩
  · intro env san users req newId salt delivered now
    rintro ⟨v, hv, hmatch⟩
    obtain ⟨existing, hfind, hmem, _⟩ := findOneByEmailOrPhone_some users _ _ v hv hmatch
    by_cases hvalid : registerValidation env san req = []
    · refine ⟨?_, ?_, fun _ => ⟨existing, hfind, hmem, ?_⟩⟩ <;>
        simp [register, hvalid, hfind, failure]
    · refine ⟨?_, ?_, fun h => absurd h hvalid⟩ <;>
        simp [register, hvalid, validationFailed]
  · intro env san users req newId salt delivered now hnone hvalid hschema
    have hfind : findOneByEmailOrPhone users (san.toLowerCase (san.normalizeEmail req.email))
        req.phone = none := by
      unfold findOneByEmailOrPhone
      rw [List.find?_eq_none]
      intro v hv
      have := hnone v hv
      simp [this.1, this.2]
    refine ⟨?_, preSavePassword env true
      (newUser env newId (san.trim req.firstName) (san.trim req.lastName)
        (san.toLowerCase (san.normalizeEmail req.email)) req.phone req.password now) salt,
      ?_, ?_, ?_, ?_⟩
    · cases delivered <;> simp [register, hvalid, hfind, hschema]
    · cases delivered <;> simp [register, hvalid, hfind, hschema]
    · simp [preSavePassword, newUser]
    · simp [preSavePassword, newUser]
    · simp [preSavePassword, newUser]

/-! ### Email delivery -/

/-- C21: when `POST /register` creates the user `u`, a failure of
`sendVerificationEmail` changes nothing: the answer is the same 201 with the
user object and the token pair, and `u` is added to the collection all the
same. In `POST /forgot-password`, for a request that passes validation and
finds a user, a failure of `sendPasswordResetEmail` is answered with 500. -/
theorem delivery_failure (env : Env) (san : Sanitizers) (users : List User)
    (req : RegisterRequest) (newId : UserId) (salt : String) (now : Nat) (u : User)
    (email : String) (v : User) (now' : Nat)
    (hcreated : (register env san users req newId salt true now).2 = users ++ [u])
    (hemail : env.isEmail email = true) :
    register env san users req newId salt false now
      = register env san users req newId salt true now
    ∧ register env san users req newId salt false now
      = ({ status := 201, success := true,
           message := some
             "User registered successfully. Please check your email for verification.",
           code := none, errors := [], retryAfter := none,
           data := some { user := some (deletePassword (toObject u true now)),
                          token := some (generateToken env u.id now),
                          refreshToken := some (generateRefreshToken env u.id now) } },
          users ++ [u])
    ∧ (forgotPassword env email (some v) false now').1
      = failure 500 "Failed to send password reset email. Please try again."
    ∧ (forgotPassword env email (some v) true now').1.status = 200 := by
  obtain ⟨hvalid, hfind, hschema, _, hu⟩ :=
    register_created env san users req newId salt true now u hcreated
  refine ⟨?_, ?_, ?_, ?_⟩
  · simp [register]
  · rw [hu]
    simp [register, hvalid, hfind, hschema]
  · simp [forgotPassword, hemail]
  · simp [forgotPassword, hemail, successMessage]

/-- Witness of C21: the sample registration at time 0 and a forgot-password of
the sample user at time 1000, both with a failing delivery. -/
theorem delivery_failure_witness :
    register demoEnv demoSanitizers [] aliceRequest 1 "salt" false 0
      = register demoEnv demoSanitizers [] aliceRequest 1 "salt" true 0
    ∧ register demoEnv demoSanitizers [] aliceRequest 1 "salt" false 0
      = ({ status := 201, success := true,
           message := some
             "User registered successfully. Please check your email for verification.",
           code := none, errors := [], retryAfter := none,
           data := some { user := some (deletePassword (toObject (aliceRegistered 0) true 0)),
                          token := some (generateToken demoEnv (aliceRegistered 0).id 0),
                          refreshToken :=
                            some (generateRefreshToken demoEnv (aliceRegistered 0).id 0) } },
          [] ++ [aliceRegistered 0])
    ∧ (forgotPassword demoEnv "alice@example.com" (some alice) false 1000).1
      = failure 500 "Failed to send password reset email. Please try again."
    ∧ (forgotPassword demoEnv "alice@example.com" (some alice) true 1000).1.status = 200 :=
  delivery_failure demoEnv demoSanitizers [] aliceRequest 1 "salt" 0 (aliceRegistered 0)
    "alice@example.com" alice 1000 (by decide) (by decide)

/-! ### `authenticateToken` -/

/-- C22: `authenticateToken` calls `next()` exactly when a token is present, is
signed with `JWT_SECRET`, is not expired, has a `type` claim that is absent,
empty or `'access'`, and its user is found, active and not blocked; the
`req.user` it attaches then holds the user's id, email and names and the role
`'user'`. In every other case it sends a response, with status 401 and
`success: false`; for an expired token this response carries the code
`TOKEN_EXPIRED`, and for a token that is malformed or signed with another
secret it is 'Invalid token' without a code. -/
theorem authenticateToken_next_iff (env : Env) (token : Option Jwt) (user : Option User)
    (now : Nat) :
    (∀ attached : ReqUser,
      authenticateToken env token user now = .next attached ↔
        ∃ (payload : JwtPayload) (u : User),
          token = some (.signed payload env.JWT_SECRET)
          ∧ now / 1000 < payload.exp
          ∧ (payload.type = none ∨ payload.type = some "" ∨ payload.type = some "access")
          ∧ user = some u ∧ u.isActive = true ∧ u.isBlocked = false
          ∧ attached = { userId := u.id, email := u.email, firstName := u.firstName,
                         lastName := u.lastName, role := "user" })
    ∧ (∀ r : Response, authenticateToken env token user now = .respond r →
        r.status = 401 ∧ r.success = false)
    ∧ (∀ payload : JwtPayload,
        token = some (.signed payload env.JWT_SECRET) → payload.exp ≤ now / 1000 →
        authenticateToken env token user now
          = .respond { status := 401, success := false, message := some "Token expired",
                       code := some "TOKEN_EXPIRED", errors := [], data := none,
                       retryAfter := none })
    ∧ (∀ (payload : JwtPayload) (key : String),
        token = some (.signed payload key) → key ≠ env.JWT_SECRET →
        authenticateToken env token user now = .respond (failure 401 "Invalid token"))
    ∧ (∀ raw : String, token = some (.malformed raw) →
        authenticateToken env token user now = .respond (failure 401 "Invalid token")) := by
  refine ⟨?_, ?_, ?_, ?_, ?_⟩
  · intro attached
    constructor
    · intro h
      unfold authenticateToken at h
      cases token with
      | none => simp at h
      | some t =>
        cases t with
        | malformed raw => simp [jwtVerify] at h
        | signed payload key =>
          simp only [jwtVerify] at h
          by_cases hkey : key = env.JWT_SECRET
          · by_cases hexp : now / 1000 ≥ payload.exp
            · simp [hkey, hexp] at h
            · simp only [hkey, ne_eq, not_true_eq_false, if_false, hexp] at h
              cases user with
              | none =>
                split at h <;> simp at h
              | some u =>
                refine ⟨payload, u, by rw [hkey], by omega, ?_⟩
                cases htype : payload.type with
                | none =>
                  simp only [htype] at h
                  cases hact : u.isActive <;> cases hblk : u.isBlocked <;>
                    simp_all
                | some s =>
                  by_cases h1 : s = ""
                  · cases hact : u.isActive <;> cases hblk : u.isBlocked <;>
                      simp_all
                  · by_cases h2 : s = "access"
                    · cases hact : u.isActive <;> cases hblk : u.isBlocked <;>
                        simp_all
                    · simp [htype, h1, h2] at h
          · simp [hkey] at h
    · rintro ⟨payload, u, rfl, hexp, htype, rfl, hact, hblk, rfl⟩
      have hlive : ¬ (now / 1000 ≥ payload.exp) := by omega
      rcases htype with htype | htype | htype <;>
        simp [authenticateToken, jwtVerify, hlive, htype, hact, hblk]
  · intro r h
    unfold authenticateToken at h
    repeat' split at h
    all_goals simp_all [failure]
    all_goals (try (subst_vars; simp))
  · rintro payload rfl hexp
    simp [authenticateToken, jwtVerify, hexp]
  · rintro payload key rfl hkey
    simp [authenticateToken, jwtVerify, hkey]
  · rintro raw rfl
    simp [authenticateToken, jwtVerify]

/-! ### The user object of the responses -/

/-- After `delete userResponse.password` no path `password` is left. -/
theorem deletePassword_no_password (o : PlainObject) :
    (deletePassword o).any (fun kv => kv.1 == "password") = false := by
  unfold deletePassword
  rw [List.any_eq_false]
  intro kv hkv
  have := (List.mem_filter.mp hkv).2
  simpa using this

/-- A response that `authenticateToken` sends has status 401, `success: false`
and no `data`. -/
theorem authenticateToken_respond (env : Env) (token : Option Jwt) (user : Option User)
    (now : Nat) (r : Response) (h : authenticateToken env token user now = .respond r) :
    r.status = 401 ∧ r.success = false ∧ r.data = none := by
  unfold authenticateToken at h
  repeat' split at h
  all_goals simp_all [failure]
  all_goals (try (subst_vars; simp))

/-- C23: whatever `POST /register`, `POST /login` and `GET /me` (behind
`authenticateToken`) answer, for every collection or user document and every
request, the user object in the body, if there is one, has no path `password`;
the document it is made from does have that path when the password was
loaded, as in register and login. -/
theorem responses_have_no_password (env : Env) (san : Sanitizers) (users : List User)
    (regReq : RegisterRequest) (newId : UserId) (salt : String) (delivered : Bool)
    (user : Option User) (loginReq : LoginRequest) (token : Option Jwt) (now : Nat) :
    hasPasswordPath (register env san users regReq newId salt delivered now).1 = false
    ∧ hasPasswordPath (login env user loginReq now).1 = false
    ∧ hasPasswordPath (meRoute env token user now) = false
    ∧ ∀ u : User, (toObject u true now).any (fun kv => kv.1 == "password") = true := by
  refine ⟨?_, ?_, ?_, ?_⟩
  · unfold register
    simp only
    repeat' split
    all_goals simp [hasPasswordPath, failure, validationFailed, deletePassword_no_password]
  · unfold login
    simp only
    repeat' split
    all_goals simp [hasPasswordPath, failure, validationFailed, deletePassword_no_password]
  · unfold meRoute
    split
    · rename_i r' hr'
      simp [hasPasswordPath, (authenticateToken_respond env token user now r' hr').2.2]
    · unfold me
      split <;> simp [hasPasswordPath, failure, deletePassword_no_password]
  · intro u
    simp [toObject]

/-! ### The sliding window of the rate limiter -/

/-- A call for another key leaves the list stored for `key` as it was. -/
theorem rateLimitAction_other_key (maxAttempts windowMs : Int) (attempts : Attempts)
    (k key : ActorKey) (now : Nat) (hk : k ≠ key) :
    (rateLimitAction maxAttempts windowMs attempts k now).2 key = attempts key := by
  unfold rateLimitAction
  simp only
  split
  · rfl
  · simp [Function.update, Ne.symm hk]

/-- A run of calls for other keys leaves the list stored for `key` as it was. -/
theorem rateLimitCalls_other_keys (maxAttempts windowMs : Int) (key : ActorKey)
    (calls : List (ActorKey × Nat)) (attempts : Attempts)
    (hcalls : ∀ c ∈ calls, c.1 ≠ key) :
    (rateLimitCalls maxAttempts windowMs attempts calls).2 key = attempts key := by
  induction calls generalizing attempts with
  | nil => rfl
  | cons c rest ih =>
    obtain ⟨k, now⟩ := c
    simp only [rateLimitCalls]
    rw [ih _ (fun c hc => hcalls c (List.mem_cons_of_mem _ hc))]
    exact rateLimitAction_other_key maxAttempts windowMs attempts k key now
      (hcalls (k, now) (List.mem_cons_self _ _))

/-- The decision of a call depends on the `Map` through the list stored for its
key only. -/
theorem rateLimitAction_allowed_congr (maxAttempts windowMs : Int) (attempts attempts' : Attempts)
    (key : ActorKey) (now : Nat) (h : attempts key = attempts' key) :
    allowed (rateLimitAction maxAttempts windowMs attempts key now)
      = allowed (rateLimitAction maxAttempts windowMs attempts' key now) := by
  unfold rateLimitAction allowed
  simp only [h]
  split <;> rfl

/-- In a run of calls at times up to `now`, on a `Map` whose timestamps are at
most `now`, every stored timestamp is at most `now`. -/
theorem rateLimitCalls_stored_past (maxAttempts windowMs : Int) (now : Nat)
    (calls : List (ActorKey × Nat)) (attempts : Attempts)
    (hstored : ∀ k, ∀ s ∈ (attempts k).getD [], s ≤ now)
    (hcalls : ∀ c ∈ calls, c.2 ≤ now) :
    ∀ k, ∀ s ∈ ((rateLimitCalls maxAttempts windowMs attempts calls).2 k).getD [], s ≤ now := by
  induction calls generalizing attempts with
  | nil => exact hstored
  | cons c rest ih =>
    obtain ⟨key, t⟩ := c
    simp only [rateLimitCalls]
    apply ih _ _ (fun c hc => hcalls c (List.mem_cons_of_mem _ hc))
    intro k s hs
    have ht : t ≤ now := hcalls (key, t) (List.mem_cons_self _ _)
    unfold rateLimitAction at hs
    simp only at hs
    split at hs
    · exact hstored k s hs
    · by_cases hk : k = key
      · subst hk
        simp only [Function.update_same, Option.getD_some, List.mem_append, List.mem_filter,
          List.mem_singleton] at hs
        rcases hs with hs | hs
        · exact hstored k s hs.1
        · omega
      · simp only [Function.update_noteq hk] at hs
        exact hstored k s hs

/-! ### Rate limiter: what a call stores -/

/-- In a run of calls, the list stored for a key holds at most `maxAttempts`
timestamps, or none at all, when that is so at the start. -/
theorem rateLimitCalls_stored_length (maxAttempts windowMs : Int)
    (calls : List (ActorKey × Nat)) (attempts : Attempts)
    (hstart : ∀ k, (((attempts k).getD []).length : Int) ≤ maxAttempts
      ∨ (attempts k).getD [] = []) :
    ∀ k, ((((rateLimitCalls maxAttempts windowMs attempts calls).2 k).getD []).length : Int)
        ≤ maxAttempts
      ∨ ((rateLimitCalls maxAttempts windowMs attempts calls).2 k).getD [] = [] := by
  induction calls generalizing attempts with
  | nil => exact hstart
  | cons c rest ih =>
    obtain ⟨key, now⟩ := c
    simp only [rateLimitCalls]
    apply ih
    intro k
    unfold rateLimitAction
    simp only
    split
    · exact hstart k
    · rename_i hlt
      by_cases hk : k = key
      · subst hk
        left
        simp only [Function.update_same, Option.getD_some, List.length_append,
          List.length_singleton]
        push_cast
        omega
      · simp only [Function.update_noteq hk]
        exact hstart k

/-- C11, at a concrete input: a limiter `rateLimitAction(1, 1000)` lets the
address `10.0.0.1` through at times 100 and 5000, after which the stored list
is `[5000]`. Its call at time 5500 is denied and the stored list stays
`[5000]`: the timestamp 5500 is not recorded, so the list is not the in-window
timestamps followed by `now`, `[5000, 5500]`. -/
theorem rateLimitAction_denied_stores_nothing :
    (rateLimitCalls 1 1000 Attempts.empty
        [(.ip "10.0.0.1", 100), (.ip "10.0.0.1", 5000)]).1 = [true, true]
    ∧ (rateLimitCalls 1 1000 Attempts.empty
        [(.ip "10.0.0.1", 100), (.ip "10.0.0.1", 5000)]).2 (.ip "10.0.0.1") = some [5000]
    ∧ allowed (rateLimitAction 1 1000
        (rateLimitCalls 1 1000 Attempts.empty
          [(.ip "10.0.0.1", 100), (.ip "10.0.0.1", 5000)]).2 (.ip "10.0.0.1") 5500) = false
    ∧ (rateLimitAction 1 1000
        (rateLimitCalls 1 1000 Attempts.empty
          [(.ip "10.0.0.1", 100), (.ip "10.0.0.1", 5000)]).2 (.ip "10.0.0.1") 5500).2
          (.ip "10.0.0.1") = some [5000]
    ∧ (rateLimitAction 1 1000
        (rateLimitCalls 1 1000 Attempts.empty
          [(.ip "10.0.0.1", 100), (.ip "10.0.0.1", 5000)]).2 (.ip "10.0.0.1") 5500).2
          (.ip "10.0.0.1") ≠ some (inWindow 1000 5500 [5000] ++ [5500]) := by
  refine ⟨by decide, by decide, by decide, by decide, by decide⟩

/-- C11, amended: after any run of calls of a rate limiter from the empty `Map`
(any keys, any times), a further call for `key` at `now` that is let through
leaves, under its key, the previous in-window timestamps followed by `now`, and
every other key as it was. A call that is denied records nothing: it leaves the
`Map` as it was, and the list stored for the key is then the previous in-window
timestamps, without `now`. -/
theorem rateLimitCalls_then_stored (maxAttempts windowMs : Int)
    (calls : List (ActorKey × Nat)) (key : ActorKey) (now : Nat) :
    (allowed (rateLimitAction maxAttempts windowMs
        (rateLimitCalls maxAttempts windowMs Attempts.empty calls).2 key now) = true →
      (rateLimitAction maxAttempts windowMs
          (rateLimitCalls maxAttempts windowMs Attempts.empty calls).2 key now).2 key
        = some (inWindow windowMs now
            (((rateLimitCalls maxAttempts windowMs Attempts.empty calls).2 key).getD [])
            ++ [now])
      ∧ ∀ other, other ≠ key →
          (rateLimitAction maxAttempts windowMs
              (rateLimitCalls maxAttempts windowMs Attempts.empty calls).2 key now).2 other
            = (rateLimitCalls maxAttempts windowMs Attempts.empty calls).2 other)
    ∧ (allowed (rateLimitAction maxAttempts windowMs
        (rateLimitCalls maxAttempts windowMs Attempts.empty calls).2 key now) = false →
      (rateLimitAction maxAttempts windowMs
          (rateLimitCalls maxAttempts windowMs Attempts.empty calls).2 key now).2
        = (rateLimitCalls maxAttempts windowMs Attempts.empty calls).2
      ∧ ((rateLimitAction maxAttempts windowMs
          (rateLimitCalls maxAttempts windowMs Attempts.empty calls).2 key now).2 key).getD []
        = inWindow windowMs now
            (((rateLimitCalls maxAttempts windowMs Attempts.empty calls).2 key).getD [])) := by
  have hbound := rateLimitCalls_stored_length maxAttempts windowMs calls Attempts.empty
    (fun k => Or.inr (by simp [Attempts.empty])) key
  generalize (rateLimitCalls maxAttempts windowMs Attempts.empty calls).2 = attempts
    at hbound ⊢
  have hstep := rateLimitAction_stored maxAttempts windowMs attempts key now
  refine ⟨hstep.1, fun hdenied => ?_⟩
  have hsame := hstep.2 hdenied
  refine ⟨hsame, ?_⟩
  rw [hsame]
  unfold inWindow
  symm
  rw [List.filter_eq_self]
  rcases hbound with hlen | hnil
  · -- the call was denied: as many timestamps are within the window as are stored
    have hfull : (((attempts key).getD []).filter
        (fun (t : Nat) => decide ((now : Int) - (t : Int) < windowMs))).length
        = ((attempts key).getD []).length := by
      have hle := List.length_filter_le
        (fun (t : Nat) => decide ((now : Int) - (t : Int) < windowMs)) ((attempts key).getD [])
      unfold rateLimitAction allowed at hdenied
      simp only at hdenied
      split at hdenied
      · rename_i hge
        omega
      · simp at hdenied
    intro t ht
    exact (List.filter_length_eq_length.mp hfull) t ht
  · rw [hnil]
    simp

/-! ### The retry bound of the rate limiter -/

/-- C24: a call that the rate limiter denies is answered 429 with
`retryAfter = Math.ceil(windowMs / 1000)`, the least number of seconds that is
no shorter than the window. When `maxAttempts ≥ 1` and no stored timestamp of
the key is later than the denied call at `now`, then after any calls for other
keys, the next call for the key is let through at every time `T` that is
`retryAfter` seconds or more after `now`. -/
theorem retryAfter_sound (maxAttempts windowMs : Int) (attempts : Attempts) (key : ActorKey)
    (now : Nat) (between : List (ActorKey × Nat))
    (hmax : 1 ≤ maxAttempts)
    (hpast : ∀ s ∈ (attempts key).getD [], s ≤ now)
    (hbetween : ∀ c ∈ between, c.1 ≠ key)
    (hdenied : allowed (rateLimitAction maxAttempts windowMs attempts key now) = false) :
    (rateLimitAction maxAttempts windowMs attempts key now).1
      = some { status := 429, success := false,
               message := some "Too many attempts. Please try again later.",
               code := none, errors := [], data := none,
               retryAfter := some (retryAfter windowMs) }
    ∧ windowMs ≤ retryAfter windowMs * 1000
    ∧ retryAfter windowMs * 1000 < windowMs + 1000
    ∧ ∀ T : Nat, (now : Int) + retryAfter windowMs * 1000 ≤ T →
        allowed (rateLimitAction maxAttempts windowMs
          (rateLimitCalls maxAttempts windowMs
            (rateLimitAction maxAttempts windowMs attempts key now).2 between).2 key T) = true := by
  have hceil : windowMs ≤ retryAfter windowMs * 1000
      ∧ retryAfter windowMs * 1000 < windowMs + 1000 := by
    unfold retryAfter
    omega
  have hstate : (rateLimitAction maxAttempts windowMs attempts key now).2 = attempts := by
    unfold rateLimitAction allowed at *
    simp only at hdenied ⊢
    split
    · rfl
    · rename_i hc
      simp [hc] at hdenied
  refine ⟨?_, hceil.1, hceil.2, ?_⟩
  · unfold rateLimitAction allowed at *
    simp only at hdenied ⊢
    split
    · rfl
    · rename_i hc
      simp [hc] at hdenied
  · intro T hT
    rw [rateLimitAction_allowed_congr maxAttempts windowMs _ attempts key T
      (by rw [rateLimitCalls_other_keys _ _ _ _ _ hbetween, hstate])]
    unfold rateLimitAction allowed
    simp only
    have hempty : ((attempts key).getD []).filter
        (fun (timestamp : Nat) => decide ((T : Int) - (timestamp : Int) < windowMs)) = [] := by
      rw [List.filter_eq_nil_iff]
      intro s hs
      have := hpast s hs
      simp only [decide_eq_true_eq]
      omega
    rw [hempty]
    have : ¬ (((([] : List Nat).length : Nat) : Int) ≥ maxAttempts) := by
      simp only [List.length_nil, Nat.cast_zero]
      omega
    rw [if_neg this]
    rfl

/-- Witness of C24: with one attempt allowed per 1500 ms, the address
`10.0.0.1`, let through at times 100 and 5000, is denied at time 5500 with
`retryAfter = 2`; after a call for another address it is let through at time
7500. -/
theorem retryAfter_sound_witness :
    (rateLimitAction 1 1500 busyAttempts (.ip "10.0.0.1") 5500).1
      = some { status := 429, success := false,
               message := some "Too many attempts. Please try again later.",
               code := none, errors := [], data := none,
               retryAfter := some (retryAfter 1500) }
    ∧ (1500 : Int) ≤ retryAfter 1500 * 1000
    ∧ retryAfter 1500 * 1000 < (1500 : Int) + 1000
    ∧ ∀ T : Nat, ((5500 : Nat) : Int) + retryAfter 1500 * 1000 ≤ T →
        allowed (rateLimitAction 1 1500
          (rateLimitCalls 1 1500
            (rateLimitAction 1 1500 busyAttempts (.ip "10.0.0.1") 5500).2
            [(.ip "10.0.0.2", 6000)]).2 (.ip "10.0.0.1") T) = true :=
  retryAfter_sound 1 1500 busyAttempts (.ip "10.0.0.1") 5500 [(.ip "10.0.0.2", 6000)]
    (by decide) (by decide) (by decide) (by decide)

/-! ### The password rule -/

/-- An element that `any` finds in the first line of a string is in the string. -/
theorem any_takeWhile {α : Type} (p q : α → Bool) (l : List α)
    (h : (l.takeWhile q).any p = true) : l.any p = true := by
  induction l with
  | nil => simp at h
  | cons a l ih =>
    by_cases hq : q a = true
    · simp only [List.takeWhile_cons, hq, if_true, List.any_cons, Bool.or_eq_true] at h ⊢
      exact h.imp id ih
    · simp [List.takeWhile_cons, hq] at h

/-- C25: the password rule of register and reset-password accepts `Abcd1234!`,
and every password it accepts has at least 8 characters, a lowercase letter, an
uppercase letter, a digit and a special character from `@$!%*?&`. The converse
fails: `#Abcd1234!` has 10 characters and one of each class, and so has
`Abcd1234\n!` with its special character on the second line, but the rule
rejects both, against the message of the validator ('Password must contain at
least one uppercase letter, one lowercase letter, one number, and one special
character'). The pattern also asks that the first character is a letter, a
digit or one of `@$!%*?&`, and its look-aheads search the first line only. -/
theorem passwordValidation_rejects_first_character :
    passwordValidation "Abcd1234!" = []
    ∧ (∀ password : String, passwordValidation password = [] →
        password.length ≥ 8 ∧ password.toList.any isLowercase = true
        ∧ password.toList.any isUppercase = true ∧ password.toList.any isDigit = true
        ∧ password.toList.any isSpecial = true)
    ∧ ("#Abcd1234!".length ≥ 8 ∧ "#Abcd1234!".toList.any isLowercase = true
        ∧ "#Abcd1234!".toList.any isUppercase = true ∧ "#Abcd1234!".toList.any isDigit = true
        ∧ "#Abcd1234!".toList.any isSpecial = true
        ∧ passwordValidation "#Abcd1234!" = ["password"])
    ∧ ("Abcd1234\n!".length ≥ 8 ∧ "Abcd1234\n!".toList.any isLowercase = true
        ∧ "Abcd1234\n!".toList.any isUppercase = true ∧ "Abcd1234\n!".toList.any isDigit = true
        ∧ "Abcd1234\n!".toList.any isSpecial = true
        ∧ passwordValidation "Abcd1234\n!" = ["password"]) := by
  refine ⟨by decide, ?_, by decide, by decide⟩
  intro password h
  unfold passwordValidation at h
  rw [List.append_eq_nil] at h
  obtain ⟨hlen, hpat⟩ := h
  have hlen' : password.length ≥ 8 := by
    have hv : validatorLength password ≥ 8 := by
      by_contra hc
      simp [hc] at hlen
    unfold validatorLength at hv
    omega
  have hpat' : passwordPattern password = true := by
    by_contra hc
    simp [hc] at hpat
  unfold passwordPattern at hpat'
  simp only [Bool.and_eq_true] at hpat'
  obtain ⟨⟨⟨⟨h1, h2⟩, h3⟩, h4⟩, _⟩ := hpat'
  exact ⟨hlen', any_takeWhile _ _ _ h1, any_takeWhile _ _ _ h2, any_takeWhile _ _ _ h3,
    any_takeWhile _ _ _ h4⟩

/-- The invariant of a run of the rate limiter, for one key: `A` lists the
times of the calls let through so far, none later than `r`, the list stored for
the key is what is left of `A` within the window at `r`, and no interval of the
length of the window holds more than `maxAttempts` of them. The invariant then
holds with the calls of a further run at times from `r` on, and it bounds the
stored list. -/
theorem rateLimitCalls_window (maxAttempts windowMs : Int) (key : ActorKey)
    (hw : 0 < windowMs) (calls : List (ActorKey × Nat)) :
    ∀ (attempts : Attempts) (A : List Nat) (r : Nat),
      calls.Pairwise (fun c d => c.2 ≤ d.2) →
      (∀ c ∈ calls, r ≤ c.2) →
      (∀ s ∈ A, s ≤ r) →
      (attempts key).getD [] = A.filter (fun (s : Nat) => decide ((r : Int) - (s : Int) < windowMs)) →
      (∀ a : Int, ((inInterval a windowMs A).length : Int) ≤ maxAttempts) →
      (∀ a : Int, ((inInterval a windowMs
          (A ++ allowedTimes maxAttempts windowMs attempts key calls)).length : Int) ≤ maxAttempts)
      ∧ ∃ (A' : List Nat) (r' : Nat), (∀ s ∈ A', s ≤ r')
          ∧ ((rateLimitCalls maxAttempts windowMs attempts calls).2 key).getD []
              = A'.filter (fun (s : Nat) => decide ((r' : Int) - (s : Int) < windowMs))
          ∧ (∀ a : Int, ((inInterval a windowMs A').length : Int) ≤ maxAttempts) := by
  induction calls with
  | nil =>
    intro attempts A r _ _ hA hL hwin
    refine ⟨?_, A, r, hA, hL, hwin⟩
    simpa [allowedTimes] using hwin
  | cons c rest ih =>
    intro attempts A r hsorted hr hA hL hwin
    obtain ⟨k, now⟩ := c
    have hrest : rest.Pairwise (fun c d => c.2 ≤ d.2) := (List.pairwise_cons.mp hsorted).2
    have hnow : ∀ c ∈ rest, now ≤ c.2 := fun c hc => (List.pairwise_cons.mp hsorted).1 c hc
    have hrnow : r ≤ now := hr (k, now) (List.mem_cons_self _ _)
    have hr' : ∀ c ∈ rest, r ≤ c.2 := fun c hc => hr c (List.mem_cons_of_mem _ hc)
    simp only [rateLimitCalls, allowedTimes]
    by_cases hk : k = key
    · subst hk
      -- the timestamps kept at `now` are the allowed calls within the window at `now`
      have hvalid : ((attempts k).getD []).filter
            (fun (timestamp : Nat) => decide ((now : Int) - (timestamp : Int) < windowMs))
          = A.filter (fun (s : Nat) => decide ((now : Int) - (s : Int) < windowMs)) := by
        rw [hL, List.filter_filter]
        apply List.filter_congr
        intro s hs
        have := hA s hs
        by_cases h1 : (now : Int) - (s : Int) < windowMs
        · have h2 : (r : Int) - (s : Int) < windowMs := by omega
          simp [h1, h2]
        · simp [h1]
      by_cases hden : ((((attempts k).getD []).filter
            (fun (timestamp : Nat) => decide ((now : Int) - (timestamp : Int) < windowMs))).length : Int)
              ≥ maxAttempts
      · -- denied: nothing changes
        have hact : rateLimitAction maxAttempts windowMs attempts k now
            = (some { status := 429, success := false,
                      message := some "Too many attempts. Please try again later.",
                      code := none, errors := [], data := none,
                      retryAfter := some (retryAfter windowMs) }, attempts) := by
          unfold rateLimitAction
          simp only
          rw [if_pos hden]
        rw [hact]
        simp only [allowed, Option.isNone_some, Bool.false_eq_true, and_false, if_false,
          List.nil_append]
        exact ih attempts A r hrest hr' hA hL hwin
      · -- allowed: `now` is stored and counted
        have hact : rateLimitAction maxAttempts windowMs attempts k now
            = (none, Function.update attempts k
                (some (((attempts k).getD []).filter
                  (fun (timestamp : Nat) => decide ((now : Int) - (timestamp : Int) < windowMs))
                  ++ [now]))) := by
          unfold rateLimitAction
          simp only
          rw [if_neg hden]
        rw [hact]
        simp only [allowed, Option.isNone_none, and_self, if_true]
        have hA' : ∀ s ∈ A ++ [now], s ≤ now := by
          intro s hs
          rcases List.mem_append.mp hs with hs | hs
          · have := hA s hs
            omega
          · simp only [List.mem_singleton] at hs
            omega
        have hL' : (Function.update attempts k
              (some (((attempts k).getD []).filter
                (fun (timestamp : Nat) => decide ((now : Int) - (timestamp : Int) < windowMs))
                ++ [now])) k).getD []
            = (A ++ [now]).filter
                (fun (s : Nat) => decide ((now : Int) - (s : Int) < windowMs)) := by
          rw [Function.update_same, Option.getD_some, hvalid, List.filter_append]
          congr 1
          simp [List.filter_cons, hw]
        have hwin' : ∀ a : Int,
            ((inInterval a windowMs (A ++ [now])).length : Int) ≤ maxAttempts := by
          intro a
          unfold inInterval
          rw [List.filter_append, List.length_append]
          by_cases hin : a ≤ (now : Int) ∧ (now : Int) < a + windowMs
          · -- every allowed call of the interval is still within the window at `now`
            have hsub : (A.filter (fun (t : Nat) =>
                  decide (a ≤ (t : Int) ∧ (t : Int) < a + windowMs))).length
                ≤ (A.filter (fun (s : Nat) =>
                  decide ((now : Int) - (s : Int) < windowMs))).length := by
              apply List.Sublist.length_le
              apply List.monotone_filter_right
              intro s hs
              simp only [decide_eq_true_eq] at hs ⊢
              omega
            rw [hvalid] at hden
            have hone : ([now].filter (fun (t : Nat) =>
                decide (a ≤ (t : Int) ∧ (t : Int) < a + windowMs))).length = 1 := by
              simp [List.filter_cons, hin]
            rw [hone]
            push_cast
            omega
          · have hzero : ([now].filter (fun (t : Nat) =>
                decide (a ≤ (t : Int) ∧ (t : Int) < a + windowMs))).length = 0 := by
              simp [List.filter_cons, hin]
            rw [hzero]
            have := hwin a
            unfold inInterval at this
            push_cast
            omega
        have := ih _ (A ++ [now]) now hrest hnow hA' hL' hwin'
        rw [List.append_assoc] at this
        exact this
    · -- a call for another key
      have hkeep := rateLimitAction_other_key maxAttempts windowMs attempts k key now hk
      have hno : (if k = key ∧ allowed (rateLimitAction maxAttempts windowMs attempts k now) = true
          then [now] else []) = ([] : List Nat) := by
        rw [if_neg (fun h => hk h.1)]
      rw [hno, List.nil_append]
      exact ih _ A r hrest hr' hA (by rw [hkeep]; exact hL) hwin

/-- C26: in a run of calls of one rate limiter from the empty `Map`, with
`maxAttempts ≥ 0`, `windowMs > 0` and non-decreasing times, for every key: the
calls for the key that were let through at times in a half-open interval of
length `windowMs` (from any `start`) are at most `maxAttempts`; and the list
stored for the key after the run holds at most `maxAttempts` timestamps. -/
theorem rateLimit_sliding_window (maxAttempts windowMs : Int) (key : ActorKey)
    (calls : List (ActorKey × Nat))
    (hmax : 0 ≤ maxAttempts) (hw : 0 < windowMs)
    (hsorted : calls.Pairwise (fun c d => c.2 ≤ d.2)) :
    (∀ start : Int,
      ((inInterval start windowMs
          (allowedTimes maxAttempts windowMs Attempts.empty key calls)).length : Int)
        ≤ maxAttempts)
    ∧ ((((rateLimitCalls maxAttempts windowMs Attempts.empty calls).2 key).getD []).length : Int)
        ≤ maxAttempts := by
  obtain ⟨hwin, A', r', hA', hL', hwin'⟩ :=
    rateLimitCalls_window maxAttempts windowMs key hw calls Attempts.empty [] 0 hsorted
      (fun _ _ => Nat.zero_le _) (by simp) (by simp [Attempts.empty])
      (by intro a; simpa [inInterval] using hmax)
  refine ⟨by simpa using hwin, ?_⟩
  rw [hL']
  have heq : A'.filter (fun (s : Nat) => decide ((r' : Int) - (s : Int) < windowMs))
      = inInterval ((r' : Int) - windowMs + 1) windowMs A' := by
    unfold inInterval
    apply List.filter_congr
    intro s hs
    have := hA' s hs
    rw [decide_eq_decide]
    omega
  rw [heq]
  exact hwin' ((r' : Int) - windowMs + 1)

/-- Witness of C26: two attempts per 1000 ms, calls of two addresses. -/
theorem rateLimit_sliding_window_witness :
    (∀ start : Int,
      ((inInterval start 1000
          (allowedTimes 2 1000 Attempts.empty (.ip "10.0.0.1")
            [(.ip "10.0.0.1", 0), (.ip "10.0.0.2", 100), (.ip "10.0.0.1", 400),
             (.ip "10.0.0.1", 900), (.ip "10.0.0.1", 1000), (.ip "10.0.0.1", 1200)])).length : Int)
        ≤ 2)
    ∧ ((((rateLimitCalls 2 1000 Attempts.empty
            [(.ip "10.0.0.1", 0), (.ip "10.0.0.2", 100), (.ip "10.0.0.1", 400),
             (.ip "10.0.0.1", 900), (.ip "10.0.0.1", 1000), (.ip "10.0.0.1", 1200)]).2
          (.ip "10.0.0.1")).getD []).length : Int) ≤ 2 :=
  rateLimit_sliding_window 2 1000 (.ip "10.0.0.1")
    [(.ip "10.0.0.1", 0), (.ip "10.0.0.2", 100), (.ip "10.0.0.1", 400),
     (.ip "10.0.0.1", 900), (.ip "10.0.0.1", 1000), (.ip "10.0.0.1", 1200)]
    (by decide) (by decide) (by decide)

/-! ### The lock invariant of the model methods -/

/-- Calls of `incLoginAttempts` and `resetLoginAttempts` keep: a lock is set
only with a counter of 5 or more. -/
theorem runLockOps_lock_counter (ops : List (LockOp × Nat)) (u : User)
    (h : u.lockUntil = none ∨ 5 ≤ u.loginAttempts) :
    (runLockOps u ops).lockUntil = none ∨ 5 ≤ (runLockOps u ops).loginAttempts := by
  induction ops generalizing u with
  | nil => exact h
  | cons c ops ih =>
    obtain ⟨op, now⟩ := c
    cases op with
    | incLoginAttempts => exact ih _ (incLoginAttempts_lock_counter u now h)
    | resetLoginAttempts => exact ih _ (Or.inl rfl)

/-- C27: in every document reached from one without `lockUntil` (so from a
fresh one, with `loginAttempts = 0` and no `lockUntil`) by calls of
`incLoginAttempts` and `resetLoginAttempts` at any times (so also at
non-decreasing ones), a set `lockUntil` comes with `loginAttempts ≥ 5`. Hence
the guard `loginAttempts > 0` of the login handler does not skip an existing
lock: a successful login on such a document stores it without `lockUntil` and
with `loginAttempts = 0`. -/
theorem lock_implies_five_attempts (u : User) (ops : List (LockOp × Nat))
    (hlock : u.lockUntil = none) :
    (∀ l, (runLockOps u ops).lockUntil = some l → 5 ≤ (runLockOps u ops).loginAttempts)
    ∧ ∀ (env : Env) (req : LoginRequest) (now : Nat),
        (login env (some (runLockOps u ops)) req now).1.status = 200 →
        (login env (some (runLockOps u ops)) req now).2
          = some { runLockOps u ops with
              loginAttempts := 0, lockUntil := none, lastLogin := now } := by
  have hinv := runLockOps_lock_counter ops u (Or.inl hlock)
  constructor
  · intro l hl
    rcases hinv with h | h
    · rw [h] at hl; cases hl
    · exact h
  · intro env req now hok
    generalize runLockOps u ops = v at hinv hok ⊢
    unfold login at hok ⊢
    simp only at hok ⊢
    repeat' split at hok
    all_goals simp_all [failure, validationFailed, resetLoginAttempts]

/-- Witness of C27: the sample user after five calls of `incLoginAttempts` at
times 1000 to 5000 is locked with a counter of 5. -/
theorem lock_implies_five_attempts_witness :
    (∀ l, (runLockOps alice
            [(.incLoginAttempts, 1000), (.incLoginAttempts, 2000), (.incLoginAttempts, 3000),
              (.incLoginAttempts, 4000), (.incLoginAttempts, 5000)]).lockUntil = some l →
        5 ≤ (runLockOps alice
            [(.incLoginAttempts, 1000), (.incLoginAttempts, 2000), (.incLoginAttempts, 3000),
              (.incLoginAttempts, 4000), (.incLoginAttempts, 5000)]).loginAttempts)
    ∧ ∀ (env : Env) (req : LoginRequest) (now : Nat),
        (login env (some (runLockOps alice
            [(.incLoginAttempts, 1000), (.incLoginAttempts, 2000), (.incLoginAttempts, 3000),
              (.incLoginAttempts, 4000), (.incLoginAttempts, 5000)])) req now).1.status = 200 →
        (login env (some (runLockOps alice
            [(.incLoginAttempts, 1000), (.incLoginAttempts, 2000), (.incLoginAttempts, 3000),
              (.incLoginAttempts, 4000), (.incLoginAttempts, 5000)])) req now).2
          = some { runLockOps alice
              [(.incLoginAttempts, 1000), (.incLoginAttempts, 2000), (.incLoginAttempts, 3000),
                (.incLoginAttempts, 4000), (.incLoginAttempts, 5000)] with
              loginAttempts := 0, lockUntil := none, lastLogin := now } :=
  lock_implies_five_attempts alice
    [(.incLoginAttempts, 1000), (.incLoginAttempts, 2000), (.incLoginAttempts, 3000),
      (.incLoginAttempts, 4000), (.incLoginAttempts, 5000)] rfl

/-! ### Refresh tokens of blocked users -/

/-- C28: `POST /refresh-token` reads neither `isBlocked` nor the lock paths of
the user: its answer is the same whatever they are. So with a refresh token
that verifies, for a user who is found and active, the answer is 200 with a new
token pair even when the user is blocked and locked, although
`authenticateToken` answers every token of a blocked user with 401. -/
theorem refreshToken_ignores_block (env : Env) (token : Jwt) (decoded : JwtPayload) (u : User)
    (now : Nat) (blocked : Bool) (attempts : Nat) (lockUntil : Option Nat)
    (hverifies : jwtVerify token (refreshSecret env) now = .ok decoded)
    (htype : decoded.type = some "refresh") (hactive : u.isActive = true) :
    refreshTokenRoute env (some token)
        (some { u with isBlocked := blocked, loginAttempts := attempts, lockUntil := lockUntil })
        now
      = refreshTokenRoute env (some token) (some u) now
    ∧ refreshTokenRoute env (some token)
        (some { u with isBlocked := true, loginAttempts := attempts, lockUntil := lockUntil }) now
      = { status := 200, success := true, message := some "Token refreshed successfully",
          code := none, errors := [], retryAfter := none,
          data := some { user := none,
                         token := some (generateToken env u.id now),
                         refreshToken := some (generateRefreshToken env u.id now) } }
    ∧ ∀ presented : Option Jwt, ∃ r : Response,
        authenticateToken env presented
            (some { u with isBlocked := true, loginAttempts := attempts,
                           lockUntil := lockUntil }) now = .respond r
        ∧ r.status = 401 := by
  refine ⟨?_, ?_, ?_⟩
  · simp [refreshTokenRoute, hverifies, htype, hactive]
  · simp [refreshTokenRoute, hverifies, htype, hactive]
  · intro presented
    cases presented with
    | none => exact ⟨_, rfl, rfl⟩
    | some t =>
      cases hv : jwtVerify t env.JWT_SECRET now with
      | error e => cases e <;> simp [authenticateToken, hv, failure]
      | ok d =>
        by_cases hkind : (match d.type with
            | none => false
            | some s => decide (s ≠ "" ∧ s ≠ "access")) = true
        · simp [authenticateToken, hv, failure]
          simp at hkind
          split <;> simp_all
        · simp at hkind
          simp [authenticateToken, hv, failure, hactive]
          split <;> simp_all

/-- Witness of C28: the sample user, blocked and locked until 7205000, presents
at time 6000 a refresh token issued at time 1000. -/
theorem refreshToken_ignores_block_witness :
    refreshTokenRoute demoEnv (some (generateRefreshToken demoEnv 1 1000))
        (some { alice with isBlocked := true, loginAttempts := 5, lockUntil := some 7205000 })
        6000
      = refreshTokenRoute demoEnv (some (generateRefreshToken demoEnv 1 1000)) (some alice) 6000
    ∧ refreshTokenRoute demoEnv (some (generateRefreshToken demoEnv 1 1000))
        (some { alice with isBlocked := true, loginAttempts := 5, lockUntil := some 7205000 })
        6000
      = { status := 200, success := true, message := some "Token refreshed successfully",
          code := none, errors := [], retryAfter := none,
          data := some { user := none,
                         token := some (generateToken demoEnv alice.id 6000),
                         refreshToken := some (generateRefreshToken demoEnv alice.id 6000) } }
    ∧ ∀ presented : Option Jwt, ∃ r : Response,
        authenticateToken demoEnv presented
            (some { alice with isBlocked := true, loginAttempts := 5,
                               lockUntil := some 7205000 }) 6000 = .respond r
        ∧ r.status = 401 :=
  refreshToken_ignores_block demoEnv (generateRefreshToken demoEnv 1 1000)
    { userId := 1, type := some "refresh", iat := 1, exp := 2592001 } alice 6000 true 5
    (some 7205000) rfl rfl rfl

/-! ### Reset tokens are not compared with the stored token -/

/-- C29: `POST /reset-password` does not read the token stored on the user:
with any other stored token the answer is the same. Once the body has passed
the validators, it answers 200 exactly when the presented token verifies under
`JWT_SECRET` at that time (signature and expiry), is of kind `password-reset`,
the user is found, and the stored expiry is not in the past. So the reset token that forgot-password issued at `t0` is
accepted at `t1`, and again at `t2` after that successful reset, as long as
its hour has not passed: the second call changes the password again. -/
theorem resetPassword_token_reusable (env : Env) (u : User) (email : String)
    (delivered : Bool) (p1 p2 salt1 salt2 : String) (t0 t1 t2 : Nat) (stored : Option Jwt)
    (hemail : env.isEmail email = true)
    (hp1 : passwordValidation p1 = []) (hp2 : passwordValidation p2 = [])
    (ht1 : t1 < (t0 / 1000 + 3600) * 1000) (ht2 : t2 < (t0 / 1000 + 3600) * 1000) :
    (∀ (token : Option Jwt) (password salt : String) (now : Nat),
      (resetPassword env token password
          (some { u with verification := { email := { u.verification.email with
                                                        token := stored } } }) salt now).1
        = (resetPassword env token password (some u) salt now).1)
    ∧ (∀ (token : Jwt) (password salt : String) (user : Option User) (now : Nat),
        passwordValidation password = [] →
        ((resetPassword env (some token) password user salt now).1.status = 200
          ↔ ∃ decoded v, jwtVerify token env.JWT_SECRET now = .ok decoded
              ∧ decoded.type = some "password-reset" ∧ user = some v
              ∧ expired v.verification.email.expiresAt now = false))
    ∧ (forgotPassword env email (some u) delivered t0).2
        = some (stepOp env u (.forgotPassword email delivered) t0)
    ∧ resetPassword env (some (resetToken env u.id t0)) p1
        (some (stepOp env u (.forgotPassword email delivered) t0)) salt1 t1
      = (successMessage "Password reset successfully",
          some { u with
            password := env.bcryptHash p1 salt1,
            verification := { email := { verified := u.verification.email.verified,
                                         token := none, expiresAt := none } } })
    ∧ resetPassword env (some (resetToken env u.id t0)) p2
        (some { u with
            password := env.bcryptHash p1 salt1,
            verification := { email := { verified := u.verification.email.verified,
                                         token := none, expiresAt := none } } }) salt2 t2
      = (successMessage "Password reset successfully",
          some { u with
            password := env.bcryptHash p2 salt2,
            verification := { email := { verified := u.verification.email.verified,
                                         token := none, expiresAt := none } } }) := by
  have hlive1 : ¬ (t1 / 1000 ≥ t0 / 1000 + 60 * 60) := by omega
  have hlive2 : ¬ (t2 / 1000 ≥ t0 / 1000 + 60 * 60) := by omega
  have hstored : ¬ (t0 + 60 * 60 * 1000 < t1) := by omega
  refine ⟨?_, ?_, ?_, ?_, ?_⟩
  · intro token password salt now
    unfold resetPassword
    simp only
    repeat' split
    all_goals simp_all
  · intro token password salt user now hpw
    unfold resetPassword
    simp only [hpw]
    repeat' split
    all_goals simp_all [failure, successMessage]
  · cases delivered <;> simp [stepOp, forgotPassword, hemail]
  · cases delivered <;>
      simp [stepOp, forgotPassword, hemail, resetPassword, resetToken, jwtSign, jwtVerify,
        hp1, hlive1, expired, hstored]
  · simp [resetPassword, resetToken, jwtSign, jwtVerify, hp2, hlive2, expired]

/-- Witness of C29: the sample user asks for a reset at time 1000, resets her
password to `Wxyz5678?` at time 2000 and, with the same token, to `Qrst9012&` at
time 3000. -/
theorem resetPassword_token_reusable_witness :
    (∀ (token : Option Jwt) (password salt : String) (now : Nat),
      (resetPassword demoEnv token password
          (some { alice with verification := { email := { alice.verification.email with
                                                            token := none } } }) salt now).1
        = (resetPassword demoEnv token password (some alice) salt now).1)
    ∧ (∀ (token : Jwt) (password salt : String) (user : Option User) (now : Nat),
        passwordValidation password = [] →
        ((resetPassword demoEnv (some token) password user salt now).1.status = 200
          ↔ ∃ decoded v, jwtVerify token demoEnv.JWT_SECRET now = .ok decoded
              ∧ decoded.type = some "password-reset" ∧ user = some v
              ∧ expired v.verification.email.expiresAt now = false))
    ∧ (forgotPassword demoEnv "alice@example.com" (some alice) true 1000).2
        = some (stepOp demoEnv alice (.forgotPassword "alice@example.com" true) 1000)
    ∧ resetPassword demoEnv (some (resetToken demoEnv alice.id 1000)) "Wxyz5678?"
        (some (stepOp demoEnv alice (.forgotPassword "alice@example.com" true) 1000)) "salt" 2000
      = (successMessage "Password reset successfully",
          some { alice with
            password := demoEnv.bcryptHash "Wxyz5678?" "salt",
            verification := { email := { verified := alice.verification.email.verified,
                                         token := none, expiresAt := none } } })
    ∧ resetPassword demoEnv (some (resetToken demoEnv alice.id 1000)) "Qrst9012&"
        (some { alice with
            password := demoEnv.bcryptHash "Wxyz5678?" "salt",
            verification := { email := { verified := alice.verification.email.verified,
                                         token := none, expiresAt := none } } }) "salt" 3000
      = (successMessage "Password reset successfully",
          some { alice with
            password := demoEnv.bcryptHash "Qrst9012&" "salt",
            verification := { email := { verified := alice.verification.email.verified,
                                         token := none, expiresAt := none } } }) :=
  resetPassword_token_reusable demoEnv alice "alice@example.com" true "Wxyz5678?" "Qrst9012&"
    "salt" "salt" 1000 2000 3000 none (by decide) (by decide) (by decide) (by decide)
    (by decide)

/-! ### The registration response carries the verification token -/

/-- C30: when `POST /register` at time `now` creates the user `u`, the answer
is 201, its `data.user` is the whole of `u.toObject()` with only the path
`password` taken out, and the path `verification.email.token` of that object
holds the token that was passed to `sendVerificationEmail`. A verify-email
request with that token, at any time `T` less than 24 hours after the second of
`now`, succeeds for `u`. -/
theorem register_response_has_token (env : Env) (san : Sanitizers) (users : List User)
    (req : RegisterRequest) (newId : UserId) (salt : String) (delivered : Bool) (now : Nat)
    (u : User) (T : Nat)
    (hcreated : (register env san users req newId salt delivered now).2 = users ++ [u])
    (hT : T < now / 1000 * 1000 + 86400000) :
    (register env san users req newId salt delivered now).1.status = 201
    ∧ (register env san users req newId salt delivered now).1.data
        = some { user := some ((toObject u true now).filter (fun kv => kv.1 != "password")),
                 token := some (generateToken env u.id now),
                 refreshToken := some (generateRefreshToken env u.id now) }
    ∧ ("verification.email.token", Field.jwt (verificationToken env newId now))
        ∈ (toObject u true now).filter (fun kv => kv.1 != "password")
    ∧ registerMail env san users req newId now
        = some (u.email, verificationToken env newId now, u.firstName)
    ∧ verifyEmail env (some (verificationToken env newId now)) (some u) T
      = (successMessage "Email verified successfully",
          some { u with
            verification := { email := { verified := true, token := none,
                                         expiresAt := none } } }) := by
  obtain ⟨hvalid, hfind, hschema, hstatus, hu⟩ :=
    register_created env san users req newId salt delivered now u hcreated
  have hlive : ¬ (T / 1000 ≥ now / 1000 + 24 * 60 * 60) := by omega
  have hstored : ¬ (now + 24 * 60 * 60 * 1000 < T) := by omega
  refine ⟨hstatus, ?_, ?_, ?_, ?_⟩
  · rw [hu]
    cases delivered <;>
      simp [register, hvalid, hfind, hschema, deletePassword]
  · rw [hu]
    simp [toObject, newUser, preSavePassword]
  · rw [hu]
    simp [registerMail, hvalid, hfind, hschema]
    simp [newUser, preSavePassword]
  · rw [hu]
    simp [verifyEmail, verificationToken, jwtSign, jwtVerify, hlive, newUser, preSavePassword,
      expired, hstored]

/-- Witness of C30: the sample registration at time 0, and a verify-email at
time 5000 with the token of the response. -/
theorem register_response_has_token_witness :
    (register demoEnv demoSanitizers [] aliceRequest 1 "salt" true 0).1.status = 201
    ∧ (register demoEnv demoSanitizers [] aliceRequest 1 "salt" true 0).1.data
        = some { user := some ((toObject (aliceRegistered 0) true 0).filter
                                (fun kv => kv.1 != "password")),
                 token := some (generateToken demoEnv (aliceRegistered 0).id 0),
                 refreshToken := some (generateRefreshToken demoEnv (aliceRegistered 0).id 0) }
    ∧ ("verification.email.token", Field.jwt (verificationToken demoEnv 1 0))
        ∈ (toObject (aliceRegistered 0) true 0).filter (fun kv => kv.1 != "password")
    ∧ registerMail demoEnv demoSanitizers [] aliceRequest 1 0
        = some ((aliceRegistered 0).email, verificationToken demoEnv 1 0,
                (aliceRegistered 0).firstName)
    ∧ verifyEmail demoEnv (some (verificationToken demoEnv 1 0)) (some (aliceRegistered 0)) 5000
      = (successMessage "Email verified successfully",
          some { aliceRegistered 0 with
            verification := { email := { verified := true, token := none,
                                         expiresAt := none } } }) :=
  register_response_has_token demoEnv demoSanitizers [] aliceRequest 1 "salt" true 0
    (aliceRegistered 0) 5000 (by decide) (by decide)

end LostFound
